import Mathlib

/-!
Shallow embedding of the response-normalization and schema-repair pipeline of
`src/lib/gemini.js` (Vibe-to-Spec Transmuter), together with proofs about it.

The JavaScript values flowing through the normalizer are modelled by `JValue`
below.  Pure JavaScript functions become Lean functions with the same names;
JavaScript's `undefined` is the `JValue.undefined` constructor, absent object
properties read as `undefined`, and the nullish-coalescing operator `??` is
`jOr`.  JavaScript numbers are modelled as rationals (every JSON numeral is a
finite decimal); `Number(string)` is modelled for the decimal forms
(sign, digits, fraction) — exotic forms such as hex or exponent notation are
mapped to "not a finite number", which only widens the fallback branch they
already take through `Number.isFinite`.  String `.trim()` is `jsTrim`,
written over `List Char` so that every computation reduces in the kernel.
-/

namespace VibeSpec

/-- Exact fraction representation of the (finite) JavaScript numbers that
flow through the normalizer.  The representation is deliberately left
unnormalized — no gcd — so that every arithmetic step reduces inside the
Lean kernel; every value built below has a positive denominator. -/
structure Frac where
  num : Int
  den : Int

/-- The fraction of an integer. -/
def Frac.ofInt (n : Int) : Frac := ⟨n, 1⟩

/-- The fraction of a natural number. -/
def Frac.ofNat (n : Nat) : Frac := ⟨(n : Int), 1⟩

/-- Fraction addition. -/
def Frac.add (a b : Frac) : Frac := ⟨a.num * b.den + b.num * a.den, a.den * b.den⟩

/-- Fraction multiplication. -/
def Frac.mul (a b : Frac) : Frac := ⟨a.num * b.num, a.den * b.den⟩

/-- Fraction division. -/
def Frac.div (a b : Frac) : Frac := ⟨a.num * b.den, a.den * b.num⟩

/-- Fraction negation. -/
def Frac.neg (a : Frac) : Frac := ⟨-a.num, a.den⟩

/-- Mathematical floor of a fraction with positive denominator (integer `/`
is Euclidean division, which is floor division for positive divisors). -/
def Frac.floor (a : Frac) : Int := a.num / a.den

/-- JSON-like runtime values of the JavaScript source.  `undefined` stands for
JavaScript `undefined` (the result of reading an absent property); the other
constructors cover every shape `JSON.parse` can produce.  Object fields are
kept in insertion order; property lookup takes the last binding of a key,
matching how duplicate keys resolve in JavaScript. -/
inductive JValue where
  | undefined : JValue
  | null : JValue
  | bool : Bool → JValue
  | num : Frac → JValue
  | str : String → JValue
  | arr : List JValue → JValue
  | obj : List (String × JValue) → JValue

/-- Property read `o[k]`: `undefined` when the key is absent or the receiver is
not an object; the last binding wins when a key is repeated. -/
def jGet (v : JValue) (k : String) : JValue :=
  match v with
  | .obj fs =>
    match fs.reverse.find? (fun p => p.1 == k) with
    | some p => p.2
    | none => .undefined
  | _ => .undefined

/-- JavaScript nullish coalescing `a ?? b`. -/
def jOr (a b : JValue) : JValue :=
  match a with
  | .undefined => b
  | .null => b
  | _ => a

/-- `isObject` from the source: a non-null, non-array object. -/
def isObject (v : JValue) : Bool :=
  match v with
  | .obj _ => true
  | _ => false

/-- `Array.isArray`. -/
def isArray (v : JValue) : Bool :=
  match v with
  | .arr _ => true
  | _ => false

/-! ### String utilities (JavaScript `trim`, `toLowerCase`, number parsing) -/

/-- Both-ends whitespace trim on the character list. -/
def trimData (l : List Char) : List Char :=
  ((l.dropWhile Char.isWhitespace).reverse.dropWhile Char.isWhitespace).reverse

/-- JavaScript `String.prototype.trim` (ASCII whitespace model). -/
def jsTrim (s : String) : String :=
  ⟨trimData s.data⟩

/-- JavaScript `String.prototype.toLowerCase` (character-wise model). -/
def jsToLower (s : String) : String :=
  ⟨s.data.map Char.toLower⟩

/-- Decimal digit test for characters. -/
def isDigitChar (c : Char) : Bool :=
  48 ≤ c.toNat && c.toNat ≤ 57

/-- Value of a list of decimal digit characters. -/
def digitsVal (l : List Char) : Nat :=
  l.foldl (fun a c => a * 10 + (c.toNat - 48)) 0

/-- Unsigned decimal parser: `digits`, `digits.digits`, `digits.` or
`.digits`; anything else is not a finite number. -/
def parseUnsignedDec (l : List Char) : Option Frac :=
  let ip := l.takeWhile isDigitChar
  match l.dropWhile isDigitChar with
  | [] => if ip.isEmpty then none else some (Frac.ofNat (digitsVal ip))
  | '.' :: fp =>
    if fp.all isDigitChar && (!ip.isEmpty || !fp.isEmpty) then
      some ((Frac.ofNat (digitsVal ip)).add
        ((Frac.ofNat (digitsVal fp)).div ⟨(10 : Int) ^ fp.length, 1⟩))
    else none
  | _ => none

/-- `Number(string)` restricted to finite results: leading/trailing
whitespace is ignored, the empty string is `0`, an optional sign precedes a
decimal numeral. -/
def jsStringToNumber (s : String) : Option Frac :=
  match (jsTrim s).data with
  | [] => some (Frac.ofNat 0)
  | '-' :: r => (parseUnsignedDec r).map Frac.neg
  | '+' :: r => parseUnsignedDec r
  | l => parseUnsignedDec l

/-- `Number(x)` for the sole element of a one-element array (JavaScript
stringifies the element, then parses): `null`/`undefined` stringify to the
empty string, hence `0`. -/
def jsArrayElemToNumber : JValue → Option Frac
  | .undefined => some (Frac.ofNat 0)
  | .null => some (Frac.ofNat 0)
  | .bool _ => none
  | .num q => some q
  | .str s => jsStringToNumber s
  | .obj _ => none
  | .arr [] => some (Frac.ofNat 0)
  | .arr [x] => jsArrayElemToNumber x
  | .arr (_ :: _ :: _) => none

/-- `Number(value)` restricted to finite results (`none` models `NaN` and
the infinities, exactly the values `Number.isFinite` rejects). -/
def jsToNumber : JValue → Option Frac
  | .undefined => none
  | .null => some (Frac.ofNat 0)
  | .bool b => some (if b then Frac.ofNat 1 else Frac.ofNat 0)
  | .num q => some q
  | .str s => jsStringToNumber s
  | .obj _ => none
  | .arr [] => some (Frac.ofNat 0)
  | .arr [x] => jsArrayElemToNumber x
  | .arr (_ :: _ :: _) => none

/-- JavaScript `Math.round`: round half towards positive infinity. -/
def jsRound (q : Frac) : Int :=
  (q.add ⟨1, 2⟩).floor

/-- `Math.min` on integers (kernel-computable). -/
def jsMin (a b : Int) : Int :=
  if a ≤ b then a else b

/-- `Math.max` on integers (kernel-computable). -/
def jsMax (a b : Int) : Int :=
  if a ≤ b then b else a

/-- Decimal printing of a natural number (the `${n}` interpolation of the
source), fuel-structured so that it reduces in the kernel. -/
def natToStrAux : Nat → Nat → List Char → List Char
  | 0, _, acc => acc
  | fuel + 1, n, acc =>
    let acc' := Char.ofNat (48 + n % 10) :: acc
    if n < 10 then acc' else natToStrAux fuel (n / 10) acc'

/-- Decimal printing of a natural number. -/
def natToStr (n : Nat) : String :=
  ⟨natToStrAux (n + 1) n []⟩

/-- Decimal printing of an integer. -/
def intToStr (i : Int) : String :=
  if i < 0 then "-" ++ natToStr i.natAbs else natToStr i.toNat

/-! ### The coercion primitives of `gemini.js` -/

/-- `toSafeString`: trimmed string, or the fallback for non-strings. -/
def toSafeString (v : JValue) (fallback : String := "") : String :=
  match v with
  | .str s => jsTrim s
  | _ => fallback

/-- `toStringArray`: non-arrays give `[]`; elements are string-coerced and
empties dropped (`filter(Boolean)`). -/
def toStringArray (v : JValue) : List String :=
  match v with
  | .arr xs => (xs.map (fun x => toSafeString x)).filter (fun s => s ≠ "")
  | _ => []

/-- One iteration bound of the `while (list.length < length)` padding loop:
`gen` builds the entry pushed for the current length. -/
def padLoop (tgt : Nat) (gen : Nat → α) : Nat → List α → List α
  | 0, l => l
  | fuel + 1, l => if l.length < tgt then padLoop tgt gen fuel (l ++ [gen l.length]) else l

/-- `toFixedLengthStringArray`: keep at most `length` coerced entries and pad
with `"{fallbackLabel} {index}"` up to the target length. -/
def toFixedLengthStringArray (v : JValue) (length : Nat) (fallbackLabel : String) : List String :=
  padLoop length (fun len => fallbackLabel ++ " " ++ natToStr (len + 1)) length
    ((toStringArray v).take length)

/-- Truthy token set of `toBoolean`. -/
def truthyTokens : List String :=
  ["true", "yes", "y", "1", "o", "허용", "가능"]

/-- Falsy token set of `toBoolean`. -/
def falsyTokens : List String :=
  ["false", "no", "n", "0", "x", "불가", "금지"]

/-- `toBoolean`: booleans pass through, recognised string tokens decide,
non-zero numbers are true, anything else yields the fallback. -/
def toBoolean (v : JValue) (fallback : Bool := false) : Bool :=
  match v with
  | .bool b => b
  | .str s =>
    let normalized := jsToLower (jsTrim s)
    if truthyTokens.contains normalized then true
    else if falsyTokens.contains normalized then false
    else fallback
  | .num q => decide (q.num ≠ 0)
  | _ => fallback

/-- `toIntegerInRange`: `null` for non-finite numbers, otherwise round and
clamp into `[lo, hi]`. -/
def toIntegerInRange (v : JValue) (lo hi : Int) : Option Int :=
  match jsToNumber v with
  | none => none
  | some q => some (jsMin hi (jsMax lo (jsRound q)))

/-- JavaScript string-or `s || fallback` (the fallback on the empty string). -/
def orDefault (s fallback : String) : String :=
  if s = "" then fallback else s

/-! ### The schema-key dictionary `K` of the source -/

namespace K

def SUMMARY : String := "한_줄_요약"

def ROLES : String := "사용자_역할"

def ROLE : String := "역할"

def DESCRIPTION : String := "설명"

def FEATURES : String := "핵심_기능"

def MUST : String := "필수"

def NICE : String := "있으면_좋음"

def FLOW : String := "화면_흐름_5단계"

def INPUT_FIELDS : String := "입력_데이터_필드"

def NAME : String := "이름"

def TYPE : String := "타입"

def EXAMPLE : String := "예시"

def PERMISSIONS : String := "권한_규칙"

def READ : String := "조회"

def CREATE : String := "생성"

def UPDATE : String := "수정"

def DELETE : String := "삭제"

def NOTES : String := "비고"

def AMBIGUITIES : String := "예외_모호한_점"

def MISSING : String := "부족한_정보"

def QUESTIONS : String := "확인_질문_3개"

def RISKS : String := "리스크_함정_3개"

def TESTS : String := "테스트_시나리오_3개"

def NEXT : String := "오늘_할_일_3개"

def PROBLEM_FRAME : String := "문제정의_5칸"

def WHO : String := "누가"

def WHEN : String := "언제"

def WHAT : String := "무엇을"

def WHY : String := "왜"

def SUCCESS : String := "성공기준"

def INTERVIEW : String := "인터뷰_모드"

def ALLOW_UNKNOWN : String := "모르겠어요_허용"

def DEFAULT_STRATEGY : String := "기본값_전략_3개"

def FOLLOW_UP : String := "추가_질문_3개"

def COMPLETENESS : String := "완성도_진단"

def SCORE : String := "점수_0_100"

def WARNINGS : String := "누락_경고"

def REQUEST_CONVERTER : String := "수정요청_변환"

def RAW_REQUEST : String := "원문"

def SHORT_REQUEST : String := "짧은_요청"

def STANDARD_REQUEST : String := "표준_요청"

def DETAILED_REQUEST : String := "상세_요청"

def IMPACT : String := "변경_영향도"

def IMPACT_SCREENS : String := "화면"

def IMPACT_PERMISSIONS : String := "권한"

def IMPACT_TESTS : String := "테스트"

def LAYER_GUIDE : String := "레이어_가이드"

def LAYER : String := "레이어"

def GOAL : String := "목표"

def OUTPUT : String := "출력"

def STANDARD_OUTPUT : String := "표준_출력"

end K

/-! ### The canonical document (`CanonicalSpec` of the specification)

The normalizer always emits a JavaScript object with exactly this shape, so
it is modelled by a record; `specToJValue` below re-reads the record as the
JSON object the source function returns. -/

/-- One `{역할, 설명}` entry of `사용자_역할`. -/
structure RoleEntry where
  role : String
  description : String
  deriving DecidableEq

/-- The five named slots of `문제정의_5칸`. -/
structure ProblemFrame where
  who : String
  «when» : String
  what : String
  why : String
  successCriteria : String
  deriving DecidableEq

/-- `인터뷰_모드` (always exactly the three follow-up questions). -/
structure InterviewMode where
  followUp : List String
  deriving DecidableEq

/-- `핵심_기능`. -/
structure Features where
  must : List String
  niceToHave : List String
  deriving DecidableEq

/-- One `{이름, 타입, 예시}` entry of `입력_데이터_필드`. -/
structure InputField where
  name : String
  type : String
  «example» : String
  deriving DecidableEq

/-- One CRUD row of `권한_규칙`. -/
structure PermissionRule where
  role : String
  canRead : Bool
  canCreate : Bool
  canUpdate : Bool
  canDelete : Bool
  notes : String
  deriving DecidableEq

/-- `예외_모호한_점`. -/
structure Ambiguities where
  missingInfo : List String
  confirmQuestions : List String
  deriving DecidableEq

/-- `수정요청_변환`. -/
structure RequestConversion where
  raw : String
  short : String
  standard : String
  detailed : String
  deriving DecidableEq

/-- `변경_영향도`. -/
structure ImpactPreview where
  screens : List String
  permissions : List String
  tests : List String
  deriving DecidableEq

/-- One `{레이어, 목표, 출력}` triple of `레이어_가이드`. -/
structure LayerGuideEntry where
  layer : String
  goal : String
  output : String
  deriving DecidableEq

/-- `완성도_진단`. -/
structure Completeness where
  score : Int
  warnings : List String
  deriving DecidableEq

/-- The normalized, fully populated document. -/
structure CanonicalSpec where
  summary : String
  problemFrame : ProblemFrame
  interview : InterviewMode
  roles : List RoleEntry
  features : Features
  flowSteps : List String
  inputFields : List InputField
  permissionRules : List PermissionRule
  ambiguities : Ambiguities
  risks : List String
  testScenarios : List String
  todayTasks : List String
  requestConversion : RequestConversion
  impactPreview : ImpactPreview
  layerGuide : List LayerGuideEntry
  completeness : Completeness
  deriving DecidableEq

/-! ### Builders used by the normalizer -/

/-- `defaultLayerGuide`: the built-in L1–L5 guidance. -/
def defaultLayerGuide : List LayerGuideEntry :=
  [ ⟨"L1", "문제를 구조화한다", "문제정의 5칸"⟩,
    ⟨"L2", "개발 가능한 스펙으로 번역한다", "역할/기능/흐름/데이터/권한"⟩,
    ⟨"L3", "요청문을 전달 가능한 형태로 만든다", "짧은/표준/상세 요청문"⟩,
    ⟨"L4", "누락과 영향도를 검증한다", "완성도 점수/누락 경고/영향도"⟩,
    ⟨"L5", "학습을 축적한다", "오늘 할 일/다음 회고 포인트"⟩ ]

/-- One mapped entry of `normalizeLayerGuide`: coerce the item at index
`idx`, falling back to the default guide entry for that position (or to
`L{idx+1}` placeholders past the defaults). -/
def normalizeLayerGuideItem (idx : Nat) (item : JValue) : LayerGuideEntry :=
  let safeItem := if isObject item then item else .obj []
  let fallback := defaultLayerGuide.getD idx ⟨"", "", ""⟩
  { layer := toSafeString (jOr (jGet safeItem K.LAYER) (jGet safeItem "layer"))
      (orDefault fallback.layer ("L" ++ natToStr (idx + 1))),
    goal := toSafeString (jOr (jGet safeItem K.GOAL) (jGet safeItem "goal"))
      (orDefault fallback.goal "목표 정의 필요"),
    output := toSafeString (jOr (jGet safeItem K.OUTPUT) (jGet safeItem "output"))
      (orDefault fallback.output "출력 정의 필요") }

/-- `normalizeLayerGuide`: coerce, drop fully empty entries, cap at five and
pad from `defaultLayerGuide`. -/
def normalizeLayerGuide (value : JValue) : List LayerGuideEntry :=
  let source := match value with | .arr xs => xs | _ => []
  let normalized :=
    ((source.enum.map (fun p => normalizeLayerGuideItem p.1 p.2)).filter
      (fun e => e.layer ≠ "" ∨ e.goal ≠ "" ∨ e.output ≠ "")).take 5
  padLoop 5 (fun len => defaultLayerGuide.getD len ⟨"", "", ""⟩) 5 normalized

/-- The three synthesized request sentences of `buildFallbackRequests`. -/
structure FallbackRequests where
  short : String
  standard : String
  detailed : String
  deriving DecidableEq

/-- `buildFallbackRequests`: default short/standard/detailed request
sentences built from the summary, the first must-feature and the first
test scenario. -/
def buildFallbackRequests (summary : String) (mustItems tests : List String) : FallbackRequests :=
  let headline := orDefault summary "기능 개선 요청"
  let must := orDefault (mustItems.headD "") "핵심 기능"
  let test := orDefault (tests.headD "") "정상 시나리오 테스트"
  { short := must ++ " 기능을 오늘 구현해주세요.",
    standard := headline ++ ". 우선순위는 " ++ must ++ "이며, 완료 기준은 " ++ test
      ++ " 통과입니다.",
    detailed := headline ++ "\n- 우선 구현: " ++ must ++ "\n- 확인 기준: " ++ test
      ++ "\n- 실패 시 처리: 입력 누락/권한 없음/유효성 실패 케이스를 분리해 오류 메시지를 제공해주세요." }

/-- `computeMissingWarnings`: the fixed ordered list of missing-field
warnings over a (partially normalized) spec. -/
def computeMissingWarnings (spec : CanonicalSpec) : List String :=
  (if spec.summary = "" then ["한 줄 요약이 비어 있습니다."] else [])
    ++ (if spec.problemFrame.who = "" then ["문제정의 5칸: 누가가 비어 있습니다."] else [])
    ++ (if spec.problemFrame.what = "" then ["문제정의 5칸: 무엇을이 비어 있습니다."] else [])
    ++ (if spec.problemFrame.successCriteria = "" then ["문제정의 5칸: 성공기준이 비어 있습니다."] else [])
    ++ (if spec.roles.length = 0 then ["사용자 역할이 비어 있습니다."] else [])
    ++ (if spec.features.must.length = 0 then ["필수 기능이 비어 있습니다."] else [])
    ++ (if spec.inputFields.length = 0 then ["입력 데이터 필드가 비어 있습니다."] else [])
    ++ (if spec.permissionRules.length = 0 then ["권한 규칙이 비어 있습니다."] else [])
    ++ (if spec.testScenarios.length = 0 then ["테스트 시나리오가 비어 있습니다."] else [])
    ++ (if spec.requestConversion.standard = "" then ["표준 요청문이 비어 있습니다."] else [])

/-- The ten predicates of `computeScoreFromSpec`, in source order. -/
def completenessChecks (spec : CanonicalSpec) : List Bool :=
  [ decide (spec.summary ≠ ""),
    decide (spec.problemFrame.who ≠ ""),
    decide (spec.problemFrame.what ≠ ""),
    decide (spec.problemFrame.successCriteria ≠ ""),
    decide (spec.roles.length > 0),
    decide (spec.features.must.length > 0),
    decide (spec.flowSteps.length = 5),
    decide (spec.inputFields.length > 0),
    decide (spec.permissionRules.length > 0),
    decide (spec.testScenarios.length = 3) ]

/-- `computeScoreFromSpec`: `Math.round((passed / 10) * 100)` over the fixed
ten-check list. -/
def computeScoreFromSpec (spec : CanonicalSpec) : Int :=
  let checks := completenessChecks spec
  let passed := (checks.filter (fun b => b)).length
  jsRound (((Frac.ofNat passed).div (Frac.ofNat checks.length)).mul (Frac.ofNat 100))

/-- First-occurrence de-duplication (`Array.from(new Set(...))`), with an
accumulator of already seen entries. -/
def dedupAux (seen : List String) : List String → List String
  | [] => []
  | x :: xs => if x ∈ seen then dedupAux seen xs else x :: dedupAux (x :: seen) xs

/-- First-occurrence de-duplication of a string list. -/
def dedupFirst (l : List String) : List String :=
  dedupAux [] l

/-- The two unconditional fallback interview questions. -/
def interviewFallbackQ4 : String :=
  "필수 입력 데이터(예: 업체명, 제품명, 수량) 중 절대 누락되면 안 되는 항목은 무엇인가요?"

/-- Second unconditional fallback interview question. -/
def interviewFallbackQ5 : String :=
  "권한 규칙에서 일반 사용자와 관리자의 조회/수정 범위를 어떻게 나눌까요?"

/-- `buildRequiredInterviewQuestions`: merge the model's questions, the
ambiguity questions and the derived "how do we settle ...?" questions with
the conditional and unconditional fallback questions, de-duplicate keeping
first occurrences, and fix the length at three. -/
def buildRequiredInterviewQuestions (problemFrame : ProblemFrame)
    (interviewSource ambiguitiesSource : JValue) : List String :=
  let sourceQuestions :=
    toStringArray (jOr (jOr (jGet interviewSource K.FOLLOW_UP)
        (jGet interviewSource "follow_up_questions")) (jGet interviewSource "questions"))
      ++ toStringArray (jOr (jGet ambiguitiesSource K.QUESTIONS)
        (jGet ambiguitiesSource "questions"))
      ++ (toStringArray (jOr (jGet ambiguitiesSource K.MISSING)
        (jGet ambiguitiesSource "missing_information"))).map
          (fun item => item ++ " 항목을 어떻게 확정할까요?")
  let fallbackQuestions :=
    [ if problemFrame.who = "" ∨ problemFrame.who = "주요 사용자 정의 필요" then
        "이 기능을 실제로 사용하는 핵심 사용자(역할)는 누구인가요?" else "",
      if problemFrame.what = "" ∨ problemFrame.what = "해결할 작업 정의 필요" then
        "사용자가 가장 먼저 처리해야 하는 핵심 작업은 무엇인가요?" else "",
      if problemFrame.successCriteria = "" ∨ problemFrame.successCriteria = "성공 기준 정의 필요" then
        "완료를 판단하는 성공 기준을 숫자나 조건으로 어떻게 정의할까요?" else "",
      interviewFallbackQ4,
      interviewFallbackQ5 ]
  let deduped := dedupFirst
    (((sourceQuestions ++ fallbackQuestions).map (fun q => jsTrim q)).filter (fun q => q ≠ ""))
  toFixedLengthStringArray (.arr (deduped.map .str)) 3 "필요 정보 질문"

/-- `extractJsonText`: strip a leading/trailing code fence (with optional
language tag) before JSON parsing. -/
def extractJsonText (text : String) : String :=
  let cleaned := jsTrim text
  if "```".data.isPrefixOf cleaned.data then
    let withoutFenceStart : List Char :=
      ((cleaned.data.drop 3).dropWhile (fun c =>
        ('a' ≤ c ∧ c ≤ 'z') ∨ ('A' ≤ c ∧ c ≤ 'Z'))).dropWhile Char.isWhitespace
    let tr := (withoutFenceStart.reverse.dropWhile Char.isWhitespace).reverse
    if "```".data.isSuffixOf tr then
      jsTrim ⟨tr.take (tr.length - 3)⟩
    else
      jsTrim ⟨withoutFenceStart⟩
  else cleaned

/-! ### `normalizeStandardOutput` (source lines 922–1078), staged

The local constants of the JavaScript function become the `...Of`
definitions below; the three sequential mutation blocks at its end become
`withRequestFallbacks`, `withImpactFallbacks` and `completenessOf`. -/

/-- `const safe = isObject(raw) ? raw : {}`. -/
def safeOf (raw : JValue) : JValue :=
  if isObject raw then raw else .obj []

/-- The repeated alias pattern for object-valued fields:
`isObject(safe[k1]) ? safe[k1] : (isObject(safe[k2]) ? safe[k2] : {})`. -/
def objAlias (safe : JValue) (k1 k2 : String) : JValue :=
  if isObject (jGet safe k1) then jGet safe k1
  else if isObject (jGet safe k2) then jGet safe k2
  else .obj []

/-- The repeated alias pattern for array-valued fields:
`Array.isArray(safe[k1]) ? safe[k1] : (Array.isArray(safe[k2]) ? safe[k2] : [])`. -/
def arrAlias (safe : JValue) (k1 k2 : String) : List JValue :=
  match jGet safe k1 with
  | .arr xs => xs
  | _ => match jGet safe k2 with
    | .arr ys => ys
    | _ => []

/-- `problemFrameSource`. -/
def problemFrameSourceOf (safe : JValue) : JValue :=
  objAlias safe K.PROBLEM_FRAME "problem_frame"

/-- `interviewSource`. -/
def interviewSourceOf (safe : JValue) : JValue :=
  objAlias safe K.INTERVIEW "interview_mode"

/-- `featuresSource`. -/
def featuresSourceOf (safe : JValue) : JValue :=
  objAlias safe K.FEATURES "core_features"

/-- `ambiguitiesSource`. -/
def ambiguitiesSourceOf (safe : JValue) : JValue :=
  objAlias safe K.AMBIGUITIES "ambiguities"

/-- `requestSource`. -/
def requestSourceOf (safe : JValue) : JValue :=
  objAlias safe K.REQUEST_CONVERTER "request_converter"

/-- `impactSource`. -/
def impactSourceOf (safe : JValue) : JValue :=
  objAlias safe K.IMPACT "impact_preview"

/-- `completenessSource`. -/
def completenessSourceOf (safe : JValue) : JValue :=
  objAlias safe K.COMPLETENESS "completeness"

/-- `roles`: coerce each entry and drop entries with both fields empty. -/
def rolesOf (safe : JValue) : List RoleEntry :=
  ((arrAlias safe K.ROLES "users_and_roles").map (fun item =>
      let safeItem := if isObject item then item else .obj []
      ({ role := toSafeString (jOr (jGet safeItem K.ROLE) (jGet safeItem "role")),
         description := toSafeString (jOr (jGet safeItem K.DESCRIPTION)
           (jGet safeItem "description")) } : RoleEntry))).filter
    (fun item => item.role ≠ "" ∨ item.description ≠ "")

/-- `inputFields`: coerce each entry and drop entirely empty entries. -/
def inputFieldsOf (safe : JValue) : List InputField :=
  ((arrAlias safe K.INPUT_FIELDS "input_fields").map (fun item =>
      let safeItem := if isObject item then item else .obj []
      ({ name := toSafeString (jOr (jGet safeItem K.NAME) (jGet safeItem "name")),
         type := toSafeString (jOr (jGet safeItem K.TYPE) (jGet safeItem "type")),
         «example» := toSafeString (jOr (jGet safeItem K.EXAMPLE)
           (jGet safeItem "example")) } : InputField))).filter
    (fun item => item.name ≠ "" ∨ item.type ≠ "" ∨ item.«example» ≠ "")

/-- `permissions`: coerce each CRUD row and drop rows with empty role and
notes. -/
def permissionsOf (safe : JValue) : List PermissionRule :=
  ((arrAlias safe K.PERMISSIONS "permission_matrix").map (fun item =>
      let safeItem := if isObject item then item else .obj []
      ({ role := toSafeString (jOr (jGet safeItem K.ROLE) (jGet safeItem "role")),
         canRead := toBoolean (jOr (jGet safeItem K.READ) (jGet safeItem "read")),
         canCreate := toBoolean (jOr (jGet safeItem K.CREATE) (jGet safeItem "create")),
         canUpdate := toBoolean (jOr (jGet safeItem K.UPDATE) (jGet safeItem "update")),
         canDelete := toBoolean (jOr (jGet safeItem K.DELETE) (jGet safeItem "delete")),
         notes := toSafeString (jOr (jGet safeItem K.NOTES)
           (jGet safeItem "notes")) } : PermissionRule))).filter
    (fun item => item.role ≠ "" ∨ item.notes ≠ "")

/-- `summary`. -/
def summaryOf (safe : JValue) : String :=
  toSafeString (jOr (jGet safe K.SUMMARY) (jGet safe "one_line_summary")) "요약 정보가 필요합니다."

/-- `problemFrame`. -/
def problemFrameOf (safe : JValue) : ProblemFrame :=
  let src := problemFrameSourceOf safe
  { who := toSafeString (jOr (jGet src K.WHO) (jGet src "who")) "주요 사용자 정의 필요",
    «when» := toSafeString (jOr (jGet src K.WHEN) (jGet src "when")) "사용 시점 정의 필요",
    what := toSafeString (jOr (jGet src K.WHAT) (jGet src "what")) "해결할 작업 정의 필요",
    why := toSafeString (jOr (jGet src K.WHY) (jGet src "why")) "문제 배경 정의 필요",
    successCriteria := toSafeString (jOr (jGet src K.SUCCESS)
      (jGet src "success_criteria")) "성공 기준 정의 필요" }

/-- `baseSpec`: the first, wholly coerced document (with the completeness
placeholder still in place). -/
def baseSpecOf (raw : JValue) : CanonicalSpec :=
  let safe := safeOf raw
  let problemFrame := problemFrameOf safe
  { summary := summaryOf safe,
    problemFrame := problemFrame,
    interview := ⟨buildRequiredInterviewQuestions problemFrame (interviewSourceOf safe)
      (ambiguitiesSourceOf safe)⟩,
    roles := rolesOf safe,
    features :=
      { must := toStringArray (jOr (jGet (featuresSourceOf safe) K.MUST)
          (jGet (featuresSourceOf safe) "must")),
        niceToHave := toStringArray (jOr (jGet (featuresSourceOf safe) K.NICE)
          (jGet (featuresSourceOf safe) "nice_to_have")) },
    flowSteps := toFixedLengthStringArray (jOr (jGet safe K.FLOW)
      (jGet safe "user_flow_steps")) 5 "사용자 흐름 단계",
    inputFields := inputFieldsOf safe,
    permissionRules := permissionsOf safe,
    ambiguities :=
      { missingInfo := toStringArray (jOr (jGet (ambiguitiesSourceOf safe) K.MISSING)
          (jGet (ambiguitiesSourceOf safe) "missing_information")),
        confirmQuestions := toFixedLengthStringArray (jOr
          (jGet (ambiguitiesSourceOf safe) K.QUESTIONS)
          (jGet (ambiguitiesSourceOf safe) "questions")) 3 "확인 질문" },
    risks := toFixedLengthStringArray (jOr (jGet safe K.RISKS) (jGet safe "risks")) 3 "리스크",
    testScenarios := toFixedLengthStringArray (jOr (jGet safe K.TESTS)
      (jGet safe "test_scenarios")) 3 "테스트 시나리오",
    todayTasks := toFixedLengthStringArray (jOr (jGet safe K.NEXT)
      (jGet safe "next_steps_today")) 3 "오늘 할 일",
    requestConversion :=
      { raw := toSafeString (jOr (jGet (requestSourceOf safe) K.RAW_REQUEST)
          (jGet (requestSourceOf safe) "original")) (summaryOf safe),
        short := toSafeString (jOr (jGet (requestSourceOf safe) K.SHORT_REQUEST)
          (jGet (requestSourceOf safe) "short")),
        standard := toSafeString (jOr (jGet (requestSourceOf safe) K.STANDARD_REQUEST)
          (jGet (requestSourceOf safe) "standard")),
        detailed := toSafeString (jOr (jGet (requestSourceOf safe) K.DETAILED_REQUEST)
          (jGet (requestSourceOf safe) "detailed")) },
    impactPreview :=
      { screens := toStringArray (jOr (jGet (impactSourceOf safe) K.IMPACT_SCREENS)
          (jGet (impactSourceOf safe) "screens")),
        permissions := toStringArray (jOr (jGet (impactSourceOf safe) K.IMPACT_PERMISSIONS)
          (jGet (impactSourceOf safe) "permissions")),
        tests := toStringArray (jOr (jGet (impactSourceOf safe) K.IMPACT_TESTS)
          (jGet (impactSourceOf safe) "tests")) },
    layerGuide := normalizeLayerGuide (jOr (jGet safe K.LAYER_GUIDE) (jGet safe "layer_guide")),
    completeness := { score := 0, warnings := [] } }

/-- The three `if (!baseSpec[...])` request-fallback assignments. -/
def withRequestFallbacks (s : CanonicalSpec) : CanonicalSpec :=
  let requestFallback := buildFallbackRequests s.summary s.features.must s.testScenarios
  { s with requestConversion :=
    { s.requestConversion with
      short := if s.requestConversion.short = "" then requestFallback.short
        else s.requestConversion.short,
      standard := if s.requestConversion.standard = "" then requestFallback.standard
        else s.requestConversion.standard,
      detailed := if s.requestConversion.detailed = "" then requestFallback.detailed
        else s.requestConversion.detailed } }

/-- The three `if (... .length === 0)` impact-fallback assignments. -/
def withImpactFallbacks (s : CanonicalSpec) : CanonicalSpec :=
  { s with impactPreview :=
    { screens := if s.impactPreview.screens.length = 0 then
        s.flowSteps.map (fun step => step ++ " 화면 영향 가능")
      else s.impactPreview.screens,
      permissions := if s.impactPreview.permissions.length = 0 then
        (if s.permissionRules.length ≠ 0 then
          s.permissionRules.map (fun rule => rule.role ++ " 권한 검토 필요")
        else ["역할별 CRUD 권한 매트릭스 재검토 필요"])
      else s.impactPreview.permissions,
      tests := if s.impactPreview.tests.length = 0 then
        s.testScenarios.map (fun item => item ++ " 검증 케이스 영향")
      else s.impactPreview.tests } }

/-- The provided score, before the `?? computed` fallback. -/
def providedScoreOf (raw : JValue) : Option Int :=
  toIntegerInRange (jOr (jGet (completenessSourceOf (safeOf raw)) K.SCORE)
    (jGet (completenessSourceOf (safeOf raw)) "score")) 0 100

/-- The provided warnings, before the emptiness fallback. -/
def providedWarningsOf (raw : JValue) : List String :=
  toStringArray (jOr (jGet (completenessSourceOf (safeOf raw)) K.WARNINGS)
    (jGet (completenessSourceOf (safeOf raw)) "warnings"))

/-- The final completeness block: the provided score wins via `??`, the
provided warnings win only when non-empty. -/
def completenessOf (raw : JValue) (s : CanonicalSpec) : Completeness :=
  { score := (providedScoreOf raw).getD (computeScoreFromSpec s),
    warnings := if providedWarningsOf raw ≠ [] then providedWarningsOf raw
      else computeMissingWarnings s }

/-- `normalizeStandardOutput`: the total normalizer. -/
def normalizeStandardOutput (raw : JValue) : CanonicalSpec :=
  let s := withImpactFallbacks (withRequestFallbacks (baseSpecOf raw))
  { s with completeness := completenessOf raw s }

/-! ### The canonical document, re-read as the JSON object the source
function returns -/

/-- The JSON object of one normalized role entry. -/
def roleToJValue (r : RoleEntry) : JValue :=
  .obj [(K.ROLE, .str r.role), (K.DESCRIPTION, .str r.description)]

/-- The JSON object of one normalized input field. -/
def inputFieldToJValue (f : InputField) : JValue :=
  .obj [(K.NAME, .str f.name), (K.TYPE, .str f.type), (K.EXAMPLE, .str f.«example»)]

/-- The JSON object of one normalized permission rule. -/
def permissionToJValue (p : PermissionRule) : JValue :=
  .obj [(K.ROLE, .str p.role), (K.READ, .bool p.canRead), (K.CREATE, .bool p.canCreate),
    (K.UPDATE, .bool p.canUpdate), (K.DELETE, .bool p.canDelete), (K.NOTES, .str p.notes)]

/-- The JSON object of one normalized layer-guide entry. -/
def layerGuideEntryToJValue (e : LayerGuideEntry) : JValue :=
  .obj [(K.LAYER, .str e.layer), (K.GOAL, .str e.goal), (K.OUTPUT, .str e.output)]

/-- The JavaScript object built and returned by `normalizeStandardOutput`,
viewed as a JSON value: this is what "feeding the canonical document back
into the normalizer" passes as `raw`. -/
def specToJValue (s : CanonicalSpec) : JValue :=
  .obj
    [ (K.SUMMARY, .str s.summary),
      (K.PROBLEM_FRAME, .obj [(K.WHO, .str s.problemFrame.who),
        (K.WHEN, .str s.problemFrame.«when»), (K.WHAT, .str s.problemFrame.what),
        (K.WHY, .str s.problemFrame.why), (K.SUCCESS, .str s.problemFrame.successCriteria)]),
      (K.INTERVIEW, .obj [(K.FOLLOW_UP, .arr (s.interview.followUp.map .str))]),
      (K.ROLES, .arr (s.roles.map roleToJValue)),
      (K.FEATURES, .obj [(K.MUST, .arr (s.features.must.map .str)),
        (K.NICE, .arr (s.features.niceToHave.map .str))]),
      (K.FLOW, .arr (s.flowSteps.map .str)),
      (K.INPUT_FIELDS, .arr (s.inputFields.map inputFieldToJValue)),
      (K.PERMISSIONS, .arr (s.permissionRules.map permissionToJValue)),
      (K.AMBIGUITIES, .obj [(K.MISSING, .arr (s.ambiguities.missingInfo.map .str)),
        (K.QUESTIONS, .arr (s.ambiguities.confirmQuestions.map .str))]),
      (K.RISKS, .arr (s.risks.map .str)),
      (K.TESTS, .arr (s.testScenarios.map .str)),
      (K.NEXT, .arr (s.todayTasks.map .str)),
      (K.REQUEST_CONVERTER, .obj [(K.RAW_REQUEST, .str s.requestConversion.raw),
        (K.SHORT_REQUEST, .str s.requestConversion.short),
        (K.STANDARD_REQUEST, .str s.requestConversion.standard),
        (K.DETAILED_REQUEST, .str s.requestConversion.detailed)]),
      (K.IMPACT, .obj [(K.IMPACT_SCREENS, .arr (s.impactPreview.screens.map .str)),
        (K.IMPACT_PERMISSIONS, .arr (s.impactPreview.permissions.map .str)),
        (K.IMPACT_TESTS, .arr (s.impactPreview.tests.map .str))]),
      (K.LAYER_GUIDE, .arr (s.layerGuide.map layerGuideEntryToJValue)),
      (K.COMPLETENESS, .obj [(K.SCORE, .num (Frac.ofInt s.completeness.score)),
        (K.WARNINGS, .arr (s.completeness.warnings.map .str))]) ]

/-! ### Derived artifacts: markdown builders (source lines 237–731) -/

/-- `boolToMark`. -/
def boolToMark (flag : Bool) : String :=
  if flag then "O" else "X"

/-- `markdownList`. -/
def markdownList (items : List String) (fallback : String := "- 없음") : String :=
  if items.length = 0 then fallback
  else String.intercalate "\n" (items.map (fun item => "- " ++ item))

/-- `markdownOrderedList`. -/
def markdownOrderedList (items : List String) (fallback : String := "1. 없음") : String :=
  if items.length = 0 then fallback
  else String.intercalate "\n" (items.enum.map (fun p => natToStr (p.1 + 1) ++ ". " ++ p.2))

/-- `buildUsersSectionMarkdown`. -/
def buildUsersSectionMarkdown (usersAndRoles : List RoleEntry) : String :=
  if usersAndRoles.length = 0 then "- 역할 정보가 아직 정의되지 않았습니다."
  else String.intercalate "\n" (usersAndRoles.map (fun item =>
    "- **" ++ orDefault item.role "역할 미정" ++ "**: " ++ orDefault item.description "-"))

/-- `buildInputFieldCardMarkdown`. -/
def buildInputFieldCardMarkdown (field : InputField) (idx : Nat) : String :=
  let title := orDefault field.name ("필드 " ++ natToStr (idx + 1))
  String.intercalate "\n"
    [ "### 입력 필드: " ++ title, "```text",
      "타입: " ++ orDefault field.type "-",
      "예시: " ++ orDefault field.«example» "-", "```" ]

/-- `buildInputFieldCardsMarkdown`. -/
def buildInputFieldCardsMarkdown (fields : List InputField) : String :=
  if fields.length = 0 then
    String.intercalate "\n"
      [ "### 입력 필드: 미정", "```text", "타입: -",
        "예시: 입력 데이터 필드가 아직 정의되지 않았습니다.", "```" ]
  else
    String.intercalate "\n\n" (fields.enum.map (fun p => buildInputFieldCardMarkdown p.2 p.1))

/-- `buildPermissionCardMarkdown`. -/
def buildPermissionCardMarkdown (rule : PermissionRule) (idx : Nat) : String :=
  let title := orDefault rule.role ("역할 " ++ natToStr (idx + 1))
  String.intercalate "\n"
    [ "### 권한 카드: " ++ title, "```text",
      "조회: " ++ boolToMark rule.canRead,
      "생성: " ++ boolToMark rule.canCreate,
      "수정: " ++ boolToMark rule.canUpdate,
      "삭제: " ++ boolToMark rule.canDelete,
      "비고: " ++ orDefault rule.notes "-", "```" ]

/-- `buildPermissionCardsMarkdown`. -/
def buildPermissionCardsMarkdown (permissionMatrix : List PermissionRule) : String :=
  if permissionMatrix.length = 0 then
    String.intercalate "\n"
      [ "### 권한 카드: 미정", "```text", "조회: -", "생성: -", "수정: -", "삭제: -",
        "비고: 권한 규칙이 아직 정의되지 않았습니다.", "```" ]
  else
    String.intercalate "\n\n"
      (permissionMatrix.enum.map (fun p => buildPermissionCardMarkdown p.2 p.1))

/-- `buildProblemFrameCardMarkdown`. -/
def buildProblemFrameCardMarkdown (label value : String) : String :=
  String.intercalate "\n" ["### " ++ label, "```text", orDefault value "-", "```"]

/-- `buildProblemFrameCardsMarkdown`. -/
def buildProblemFrameCardsMarkdown (problemFrame : ProblemFrame) : String :=
  String.intercalate "\n\n"
    [ buildProblemFrameCardMarkdown "누가" problemFrame.who,
      buildProblemFrameCardMarkdown "언제" problemFrame.«when»,
      buildProblemFrameCardMarkdown "무엇을" problemFrame.what,
      buildProblemFrameCardMarkdown "왜" problemFrame.why,
      buildProblemFrameCardMarkdown "성공기준" problemFrame.successCriteria ]

/-- `buildProblemFramePromptMarkdown`. -/
def buildProblemFramePromptMarkdown (problemFrame : ProblemFrame) : String :=
  String.intercalate "\n"
    [ "- 누가: " ++ orDefault problemFrame.who "-",
      "- 언제: " ++ orDefault problemFrame.«when» "-",
      "- 무엇을: " ++ orDefault problemFrame.what "-",
      "- 왜: " ++ orDefault problemFrame.why "-",
      "- 성공기준: " ++ orDefault problemFrame.successCriteria "-" ]

/-- `buildLayerGuideMarkdown`. -/
def buildLayerGuideMarkdown (layerGuide : List LayerGuideEntry) : String :=
  String.intercalate "\n" (layerGuide.map (fun item =>
    "- **" ++ item.layer ++ "**: " ++ item.goal ++ " → " ++ item.output))

/-- `buildImpactMarkdown`. -/
def buildImpactMarkdown (impact : ImpactPreview) : String :=
  String.intercalate "\n"
    [ "### 화면", markdownList impact.screens, "",
      "### 권한", markdownList impact.permissions, "",
      "### 테스트", markdownList impact.tests ]

/-- `buildRequestTransformMarkdown`. -/
def buildRequestTransformMarkdown (requests : RequestConversion) : String :=
  String.intercalate "\n"
    [ "- 원문: " ++ orDefault requests.raw "-",
      "- 짧은 요청: " ++ orDefault requests.short "-",
      "- 표준 요청: " ++ orDefault requests.standard "-",
      "- 상세 요청: " ++ orDefault requests.detailed "-" ]

/-- `buildCoreConceptGuideMarkdown`. -/
def buildCoreConceptGuideMarkdown : String :=
  String.intercalate "\n"
    [ "- Parsing: 사용자가 입력한 문장에서 필요한 값을 규칙대로 뽑아내는 단계",
      "- Schema: 데이터 필드 이름/타입/필수 여부를 정의한 약속",
      "- JSON: 시스템끼리 데이터를 주고받을 때 쓰는 구조화된 텍스트 형식",
      "- Validation: 입력값이 스키마 규칙을 지키는지 검사하는 과정" ]

/-- `buildNonDevSpecMarkdown`: the beginner-oriented report. -/
def buildNonDevSpecMarkdown (spec : CanonicalSpec) : String :=
  String.intercalate "\n"
    [ "# 표준 출력 스키마(초보 친화형)", "",
      "## 한 줄 요약 (이 앱이 뭘 하는지)", spec.summary, "",
      "## 문제정의 5칸", buildProblemFrameCardsMarkdown spec.problemFrame, "",
      "## 인터뷰 모드 (필요 정보 질문 자동 생성)", "### 필요 정보 질문 3개",
      markdownOrderedList spec.interview.followUp, "",
      "## 핵심 용어 빠른 가이드", buildCoreConceptGuideMarkdown, "",
      "## 사용자/역할 (Admin, Member 등)", buildUsersSectionMarkdown spec.roles, "",
      "## 핵심 기능 목록 (Must / Nice-to-have)", "### Must",
      markdownList spec.features.must, "",
      "### Nice-to-have", markdownList spec.features.niceToHave, "",
      "## 화면/흐름 (사용자 행동 순서 5단계)", markdownOrderedList spec.flowSteps, "",
      "## 입력 데이터(필드) (이름/타입/예시)", buildInputFieldCardsMarkdown spec.inputFields, "",
      "## 권한 규칙 (역할별 박스)", buildPermissionCardsMarkdown spec.permissionRules, "",
      "## 예외/모호한 점 (부족한 정보 + 질문 3개)", "### 부족한 정보",
      markdownList spec.ambiguities.missingInfo, "",
      "### 확인 질문 3개", markdownOrderedList spec.ambiguities.confirmQuestions, "",
      "## 리스크/함정 (3개)", markdownOrderedList spec.risks, "",
      "## 테스트 시나리오 (3개)", markdownOrderedList spec.testScenarios, "",
      "## 수정요청 변환", buildRequestTransformMarkdown spec.requestConversion, "",
      "## 변경 영향도", buildImpactMarkdown spec.impactPreview, "",
      "## 완성도 진단", "- 점수: " ++ intToStr spec.completeness.score ++ " / 100",
      "- 누락 경고", markdownList spec.completeness.warnings, "",
      "## 레이어 가이드 (L1~L5)", buildLayerGuideMarkdown spec.layerGuide, "",
      "## 다음 단계 (오늘 할 일 3개)", markdownOrderedList spec.todayTasks ]

/-- `buildDevSpecMarkdown`: the developer-oriented report. -/
def buildDevSpecMarkdown (spec : CanonicalSpec) : String :=
  String.intercalate "\n"
    [ "# 개발자 구현 스펙 (표준 스키마 기반)", "",
      "## Product Intent", "- 요약: " ++ spec.summary, "",
      "## Core Terms", buildCoreConceptGuideMarkdown, "",
      "## Problem Frame", buildProblemFrameCardsMarkdown spec.problemFrame, "",
      "## Roles", buildUsersSectionMarkdown spec.roles, "",
      "## Scope", "### Must", markdownList spec.features.must, "",
      "### Nice-to-have", markdownList spec.features.niceToHave, "",
      "## UX Flow (5 steps)", markdownOrderedList spec.flowSteps, "",
      "## Data Contract", buildInputFieldCardsMarkdown spec.inputFields, "",
      "## Authorization Cards", buildPermissionCardsMarkdown spec.permissionRules, "",
      "## Open Questions", markdownOrderedList spec.ambiguities.confirmQuestions, "",
      "## Risks", markdownOrderedList spec.risks, "",
      "## Test Scenarios", markdownOrderedList spec.testScenarios, "",
      "## Request Transformer Output", buildRequestTransformMarkdown spec.requestConversion, "",
      "## Impact Preview", buildImpactMarkdown spec.impactPreview, "",
      "## Completeness", "- Score: " ++ intToStr spec.completeness.score ++ "/100",
      markdownList spec.completeness.warnings, "",
      "## Layer Guide", buildLayerGuideMarkdown spec.layerGuide, "",
      "## Today Plan", markdownOrderedList spec.todayTasks ]

/-- `buildMasterPrompt`: the copy-paste prompt artifact. -/
def buildMasterPrompt (spec : CanonicalSpec) : String :=
  let mustList := markdownOrderedList spec.features.must "1. Must 기능 없음"
  let flowList := markdownOrderedList spec.flowSteps "1. 사용자 흐름 단계 없음"
  let testList := markdownOrderedList spec.testScenarios "1. 테스트 시나리오 없음"
  let nextList := markdownOrderedList spec.todayTasks "1. 오늘 할 일 없음"
  String.intercalate "\n"
    [ "당신은 구현 담당 시니어 개발자다. 아래 표준 스키마를 기준으로 기능을 구현하라.", "",
      "[한 줄 요약] " ++ spec.summary, "",
      "[문제정의 5칸]", buildProblemFramePromptMarkdown spec.problemFrame, "",
      "[핵심 Must 기능]", mustList, "",
      "[화면 흐름 5단계]", flowList, "",
      "[입력 필드]", buildInputFieldCardsMarkdown spec.inputFields, "",
      "[권한 규칙]", buildPermissionCardsMarkdown spec.permissionRules, "",
      "[표준 요청문]", spec.requestConversion.standard, "",
      "[변경 영향도]", buildImpactMarkdown spec.impactPreview, "",
      "[테스트 시나리오 3개]", testList, "",
      "[오늘 할 일 3개]", nextList, "",
      "요구사항:",
      "1) 데이터 검증 규칙과 권한 체크를 코드로 분리할 것.",
      "2) 에러 케이스(누락 입력/권한 없음/유효성 실패)를 명시적으로 처리할 것.",
      "3) 구현 후 테스트 시나리오 3개를 체크리스트로 검증할 것." ]

/-! ### Compatibility layers: thinking trace and glossary
(source lines 736–899) -/

/-- One alternative of the thinking trace. -/
structure AlternativeEntry where
  name : String
  pros : List String
  cons : List String
  decision : String
  reason : String
  deriving DecidableEq

/-- The `L1_thinking` compatibility layer. -/
structure ThinkingLayer where
  interpretation : String
  assumptions : List String
  uncertainties : List String
  alternatives : List AlternativeEntry
  deriving DecidableEq

/-- `normalizeThinkingAlternatives`. -/
def normalizeThinkingAlternatives (value : JValue) : List AlternativeEntry :=
  match value with
  | .arr xs =>
    (xs.map (fun item =>
      let safe := if isObject item then item else .obj []
      ({ name := toSafeString (jGet safe "name") "대안",
         pros := toStringArray (jGet safe "pros"),
         cons := toStringArray (jGet safe "cons"),
         decision := toSafeString (jGet safe "decision") "보류",
         reason := toSafeString (jGet safe "reason") } : AlternativeEntry))).filter
      (fun item => item.name ≠ "" ∨ item.pros.length ≠ 0 ∨ item.cons.length ≠ 0
        ∨ item.reason ≠ "")
  | _ => []

/-- The two built-in default alternatives of `buildCompatibilityThinking`. -/
def defaultAlternatives : List AlternativeEntry :=
  [ { name := "A. 템플릿 기반 빠른 시작",
      pros := [ "초보자가 바로 실행 가능한 구조를 빠르게 만들 수 있음",
        "요청문/테스트/권한 누락을 초기에 줄일 수 있음" ],
      cons := [ "자유도가 낮아 복잡한 케이스 확장에 한계가 있음" ],
      decision := "adopt",
      reason := "초보자 MVP 단계에서는 구조화와 실행 속도가 우선이므로 기본 경로로 채택합니다." },
    { name := "B. 자유 입력 중심 고유연성",
      pros := [ "도메인 특수 요구를 자유롭게 표현할 수 있음" ],
      cons := [ "초보자에게는 요구사항 누락/모호성이 증가하기 쉬움",
        "검증/테스트 항목이 비어 배포 전 리스크가 커질 수 있음" ],
      decision := "reject",
      reason := "초보자 온보딩 단계에서는 품질 편차가 커서 기본 경로로는 배제하고, 고급 모드에서만 허용합니다." } ]

/-- `buildCompatibilityThinking`. -/
def buildCompatibilityThinking (spec : CanonicalSpec) (rawThinking : JValue := .null) :
    ThinkingLayer :=
  let raw := if isObject rawThinking then rawThinking else .obj []
  let normalizedAlternatives := normalizeThinkingAlternatives (jGet raw "alternatives")
  let assumptions := toStringArray (jGet raw "assumptions")
  let uncertainties := toStringArray (jGet raw "uncertainties")
  { interpretation := toSafeString (jGet raw "interpretation") spec.summary,
    assumptions := if assumptions.length ≠ 0 then assumptions else spec.features.must,
    uncertainties := uncertainties ++ spec.ambiguities.missingInfo
      ++ spec.ambiguities.confirmQuestions ++ spec.completeness.warnings,
    alternatives := if normalizedAlternatives.length ≠ 0 then normalizedAlternatives
      else defaultAlternatives }

/-- One entry of the glossary navigator. -/
structure GlossaryEntry where
  term : String
  simple : String
  analogy : String
  why : String
  decision_point : String
  beginner_note : String
  practical_note : String
  common_mistakes : List String
  request_template : String
  aliases : List String
  flow_stage : String
  deriving DecidableEq

/-- The four fixed core glossary terms of `buildCompatibilityGlossary`. -/
def coreGlossaryTerms : List GlossaryEntry :=
  [ { term := "Parsing",
      simple := "Parsing은 문장에서 필요한 값을 규칙대로 뽑아 구조화하는 과정입니다.",
      analogy := "자유롭게 쓴 메모에서 주문서 칸만 정확히 추출해 옮기는 작업과 같습니다.",
      why := "파싱 규칙이 불명확하면 입력 오류와 누락이 급격히 늘어납니다.",
      decision_point := "입력 문장 포맷을 고정할지, 자연어에서 유연 추출할지 결정하세요.",
      beginner_note := "처음에는 포맷을 고정하는 방식이 안정적입니다.",
      practical_note := "정규식/파서 규칙 실패 시 에러 메시지를 명확히 반환하세요.",
      common_mistakes := [ "구분자 규칙을 문서화하지 않아 사용자 입력이 제각각이 됨",
        "파싱 실패 케이스를 무시하고 빈 값으로 저장함" ],
      request_template := "Parsing 규칙(입력 포맷, 실패 처리, 에러 메시지)을 명시하고 테스트 케이스를 추가해주세요.",
      aliases := ["파싱", "parsing"],
      flow_stage := "Parsing" },
    { term := "Schema",
      simple := "Schema는 데이터 필드의 이름, 타입, 필수 여부를 정의한 약속입니다.",
      analogy := "엑셀 양식의 열 이름과 입력 규칙을 미리 정해두는 설계도입니다.",
      why := "Schema가 없으면 팀마다 다른 해석으로 저장되어 데이터가 깨집니다.",
      decision_point := "필수 필드와 선택 필드를 어디까지 구분할지 결정하세요.",
      beginner_note := "핵심 필드 3~5개부터 시작해 단계적으로 확장하세요.",
      practical_note := "클라이언트/서버 Schema를 동일하게 유지해야 검증 불일치를 줄일 수 있습니다.",
      common_mistakes := [ "타입 정의 없이 문자열로만 저장함",
        "필수 필드 누락을 허용해 후속 로직이 실패함" ],
      request_template := "Schema(필드명/타입/필수 여부)를 확정하고 Validation 규칙을 함께 정의해주세요.",
      aliases := ["스키마", "schema"],
      flow_stage := "Source of Truth" },
    { term := "JSON",
      simple := "JSON은 시스템끼리 데이터를 교환할 때 쓰는 구조화된 텍스트 형식입니다.",
      analogy := "사람이 읽을 수 있는 형태의 표준 전달 문서라고 보면 됩니다.",
      why := "JSON 구조가 고정되면 자동화/검증/테스트가 쉬워집니다.",
      decision_point := "응답에서 필수 키를 무엇으로 고정할지 결정하세요.",
      beginner_note := "키 이름은 짧고 의미가 분명해야 유지보수가 쉽습니다.",
      practical_note := "JSON 파싱 실패에 대비한 재시도/복구 로직이 필요합니다.",
      common_mistakes := [ "필드 타입이 호출마다 바뀜", "필수 키가 누락되어 UI 렌더링이 깨짐" ],
      request_template := "JSON 응답 스키마의 필수 키와 타입을 고정하고 누락 시 fallback을 추가해주세요.",
      aliases := ["제이슨", "json"],
      flow_stage := "Data Sync" },
    { term := "Validation",
      simple := "Validation은 입력값이 규칙을 지키는지 확인하는 단계입니다.",
      analogy := "문서 제출 전에 필수 항목과 형식을 점검하는 체크리스트와 같습니다.",
      why := "Validation이 없으면 잘못된 데이터가 저장되어 오류가 연쇄적으로 발생합니다.",
      decision_point := "어떤 입력을 즉시 차단하고 어떤 입력은 경고로 처리할지 결정하세요.",
      beginner_note := "필수값 누락과 타입 오류부터 먼저 막으세요.",
      practical_note := "클라이언트/서버 양쪽 Validation을 분리해 구현하세요.",
      common_mistakes := [ "클라이언트에서만 검사하고 서버 검사를 생략함",
        "에러 원인을 사용자에게 설명하지 않음" ],
      request_template := "Validation 규칙(필수값/타입/범위)과 실패 메시지를 정의해주세요.",
      aliases := ["검증", "validation"],
      flow_stage := "Source of Truth" } ]

/-- `buildCompatibilityGlossary`: the core terms plus up to eight terms
derived from the input fields. -/
def buildCompatibilityGlossary (spec : CanonicalSpec) : List GlossaryEntry :=
  let fieldTerms := (spec.inputFields.take 8).enum.map (fun p =>
    let name := orDefault p.2.name ("필드" ++ natToStr (p.1 + 1))
    let type := orDefault p.2.type "string"
    ({ term := name,
       simple := name ++ "은(는) " ++ type ++ " 타입 입력값입니다.",
       analogy := "입력 폼의 칸 하나를 정확히 정의하는 규칙입니다.",
       why := "타입과 예시를 먼저 고정하면 개발/테스트 오류를 줄일 수 있습니다.",
       decision_point := name ++ " 필드의 필수 여부와 유효성 규칙을 결정하세요.",
       beginner_note := "필드마다 반드시 예시값을 먼저 정하세요.",
       practical_note := "클라이언트/서버에서 동일한 검증 규칙을 사용하세요.",
       common_mistakes := [ "화면 입력 검증만 하고 서버 검증을 누락함",
         "필드 타입 정의 없이 문자열로만 처리함" ],
       request_template := name ++ " 필드를 " ++ type ++ " 타입으로 고정하고 유효성 검증 규칙을 추가해주세요.",
       aliases := [name],
       flow_stage := "Parsing" } : GlossaryEntry))
  coreGlossaryTerms ++ fieldTerms

/-! ### `normalizeResult` (source lines 1084–1105) -/

/-- The artifact bundle of `normalizeResult`. -/
structure Artifacts where
  dev_spec_md : String
  nondev_spec_md : String
  master_prompt : String
  deriving DecidableEq

/-- The result document the UI consumes.  In the source the spec object is
stored under the two keys `standard_output` and `표준_출력` with the same
value; the record keeps it once. -/
structure ResultDoc where
  model : String
  standard_output : CanonicalSpec
  artifacts : Artifacts
  layers_L1_thinking : ThinkingLayer
  glossary : List GlossaryEntry
  deriving DecidableEq

/-- `normalizeResult`: normalize, then derive every artifact from the
canonical spec. -/
def normalizeResult (raw : JValue) (fallbackModel : String) : ResultDoc :=
  let safe := if isObject raw then raw else .obj []
  let spec := normalizeStandardOutput safe
  let rawThinking :=
    if isObject (jGet (jGet safe "layers") "L1_thinking") then
      jGet (jGet safe "layers") "L1_thinking"
    else if isObject (jGet safe "L1_thinking") then jGet safe "L1_thinking"
    else .null
  { model :=
      match jGet safe "model" with
      | .str s => if jsTrim s ≠ "" then s else fallbackModel
      | _ => fallbackModel,
    standard_output := spec,
    artifacts :=
      { dev_spec_md := buildDevSpecMarkdown spec,
        nondev_spec_md := buildNonDevSpecMarkdown spec,
        master_prompt := buildMasterPrompt spec },
    layers_L1_thinking := buildCompatibilityThinking spec rawThinking,
    glossary := buildCompatibilityGlossary spec }

/-- Module-level mutable state of `gemini.js`: the `availableModels` cache.
The normalizer and artifact builders never read or write it; this state type
exists to make that fact a provable statement. -/
def ModuleState : Type := List String

/-- `normalizeResult` as a computation over the module state, translated
from a function body that mentions no module-level variable: it is the pure
computation lifted into the state monad. -/
def normalizeResultInModule (raw : JValue) (fallbackModel : String) :
    StateM ModuleState ResultDoc :=
  pure (normalizeResult raw fallbackModel)

/-! ### Prompt contract and generation pipeline (source lines 71–163 and
1112–1209) -/

/-- `JSON_SCHEMA_HINT`: the literal schema skeleton embedded into every
prompt. -/
def JSON_SCHEMA_HINT : String :=
  String.intercalate "\n"
    [ "\x7b",
      "  \"한_줄_요약\": \"string\",",
      "  \"문제정의_5칸\": \x7b",
      "    \"누가\": \"string\",",
      "    \"언제\": \"string\",",
      "    \"무엇을\": \"string\",",
      "    \"왜\": \"string\",",
      "    \"성공기준\": \"string\"",
      "  \x7d,",
      "  \"인터뷰_모드\": \x7b",
      "    \"추가_질문_3개\": [\"string\", \"string\", \"string\"]",
      "  \x7d,",
      "  \"사용자_역할\": [",
      "    \x7b",
      "      \"역할\": \"string\",",
      "      \"설명\": \"string\"",
      "    \x7d",
      "  ],",
      "  \"핵심_기능\": \x7b",
      "    \"필수\": [\"string\"],",
      "    \"있으면_좋음\": [\"string\"]",
      "  \x7d,",
      "  \"화면_흐름_5단계\": [\"string\", \"string\", \"string\", \"string\", \"string\"],",
      "  \"입력_데이터_필드\": [",
      "    \x7b",
      "      \"이름\": \"string\",",
      "      \"타입\": \"string\",",
      "      \"예시\": \"string\"",
      "    \x7d",
      "  ],",
      "  \"권한_규칙\": [",
      "    \x7b",
      "      \"역할\": \"string\",",
      "      \"조회\": true,",
      "      \"생성\": true,",
      "      \"수정\": true,",
      "      \"삭제\": true,",
      "      \"비고\": \"string\"",
      "    \x7d",
      "  ],",
      "  \"예외_모호한_점\": \x7b",
      "    \"부족한_정보\": [\"string\"],",
      "    \"확인_질문_3개\": [\"string\", \"string\", \"string\"]",
      "  \x7d,",
      "  \"리스크_함정_3개\": [\"string\", \"string\", \"string\"],",
      "  \"테스트_시나리오_3개\": [\"string\", \"string\", \"string\"],",
      "  \"오늘_할_일_3개\": [\"string\", \"string\", \"string\"],",
      "  \"완성도_진단\": \x7b",
      "    \"점수_0_100\": 88,",
      "    \"누락_경고\": [\"string\"]",
      "  \x7d,",
      "  \"수정요청_변환\": \x7b",
      "    \"원문\": \"string\",",
      "    \"짧은_요청\": \"string\",",
      "    \"표준_요청\": \"string\",",
      "    \"상세_요청\": \"string\"",
      "  \x7d,",
      "  \"변경_영향도\": \x7b",
      "    \"화면\": [\"string\"],",
      "    \"권한\": [\"string\"],",
      "    \"테스트\": [\"string\"]",
      "  \x7d,",
      "  \"레이어_가이드\": [",
      "    \x7b",
      "      \"레이어\": \"L1|L2|L3|L4|L5\",",
      "      \"목표\": \"string\",",
      "      \"출력\": \"string\"",
      "    \x7d",
      "  ]",
      "\x7d" ]

/-- `BASE_SYSTEM_PROMPT`: the behaviour rules of the generation prompt (the
template literal begins and ends with a newline). -/
def BASE_SYSTEM_PROMPT : String :=
  "\n" ++ String.intercalate "\n"
    [ "You are the \"Vibe-to-Spec Transmuter\" for an educational MVP focused on beginner-friendly software specs.",
      "Goal: Convert an abstract vibe into a practical, implementation-ready standard output schema.",
      "",
      "OUTPUT RULES (MUST FOLLOW):",
      "1) Return JSON ONLY. No markdown wrapper. No prose outside JSON.",
      "2) Follow the exact schema shape provided.",
      "3) Use Korean language by default, but keep technical terms/identifiers in English when helpful.",
      "4) The schema keys are fixed and fully Korean. Do not add extra top-level keys.",
      "5) Keep output beginner-friendly and concrete.",
      "6) \"문제정의_5칸\" must fill all fields with concrete text.",
      "7) \"인터뷰_모드.추가_질문_3개\" must always contain exactly 3 required-information questions.",
      "8) \"화면_흐름_5단계\" must have exactly 5 concise steps.",
      "9) \"예외_모호한_점.확인_질문_3개\", \"리스크_함정_3개\", \"테스트_시나리오_3개\", \"오늘_할_일_3개\" must each have exactly 3 items.",
      "10) \"권한_규칙\" should be realistic by role and include clear CRUD booleans.",
      "11) \"완성도_진단.점수_0_100\" must be an integer 0~100, and \"누락_경고\" must be actionable.",
      "12) \"수정요청_변환\" must include short/standard/detailed request variants that can be copied to developers.",
      "13) \"변경_영향도\" must mention at least one screen impact, one permission impact, and one test impact.",
      "14) \"레이어_가이드\" must describe L1-L5 progression for beginners." ]
    ++ "\n"

/-- `buildPrompt`: the generation prompt, or (when `retryPayload` carries
the previous raw output) the repair prompt built from it. -/
def buildPrompt (vibe : String) (showThinking : Bool) (retryPayload : Option String := none) :
    String :=
  match retryPayload with
  | some payload =>
    "Your previous response was invalid JSON. Fix it now. Return JSON only and strictly follow schema.\nSchema:\n"
      ++ JSON_SCHEMA_HINT ++ "\nPrevious output:\n" ++ payload
  | none =>
    "SYSTEM:\n" ++ BASE_SYSTEM_PROMPT ++ "\n\nJSON Schema Shape:\n" ++ JSON_SCHEMA_HINT
      ++ "\n\nUser vibe:\n" ++ vibe ++ "\n\nRuntime option: showThinking="
      ++ (if showThinking then "ON" else "OFF") ++ ".\nReturn only the fixed schema above."

/-- The message of the syntax error `JSON.parse` throws on the second
failure. -/
def jsonParseFailureMessage : String := "SyntaxError: invalid JSON"

/-- `parseJsonWithOneRetry`.  The generation client (`generateContent`
composed with `response.text()`) is a function from the prompt text to
either a thrown error or the raw response text; `jsonParse` models
`JSON.parse` (`none` = throw).  The second component of the result is the
trace of prompts issued to the client, one per call. -/
def parseJsonWithOneRetry (client : String → Except String String)
    (jsonParse : String → Option JValue) (vibe : String) (showThinking : Bool) :
    Except String JValue × List String :=
  let p1 := buildPrompt vibe showThinking none
  match client p1 with
  | .error e => (.error e, [p1])
  | .ok firstText =>
    match jsonParse (extractJsonText firstText) with
    | some v => (.ok v, [p1])
    | none =>
      let p2 := buildPrompt vibe showThinking (some firstText)
      match client p2 with
      | .error e => (.error e, [p1, p2])
      | .ok repairedText =>
        match jsonParse (extractJsonText repairedText) with
        | some v => (.ok v, [p1, p2])
        | none => (.error jsonParseFailureMessage, [p1, p2])

/-- The guard error thrown for a missing API key. -/
def apiKeyMissingMessage : String := "API key is missing."

/-- The single opaque error surfaced when generation or parsing fails. -/
def transmuteFailureMessage : String :=
  "Transmutation interrupted by model or JSON parsing failure."

/-- `transmuteVibeToSpec`.  `modelName` stands for the `getOptimalModel`
result (model discovery over the network is an external collaborator); an
empty `apiKey` models the falsy `!apiKey` guard. -/
def transmuteVibeToSpec (client : String → Except String String)
    (jsonParse : String → Option JValue) (modelName vibe apiKey : String)
    (showThinking : Bool := true) : Except String ResultDoc :=
  if apiKey = "" then .error apiKeyMissingMessage
  else
    match (parseJsonWithOneRetry client jsonParse vibe showThinking).1 with
    | .ok parsed => .ok (normalizeResult parsed modelName)
    | .error _ => .error transmuteFailureMessage

/-! ### Invariants of the canonical document -/

/-- A string is trim-stable: `trim` does not change it. -/
def Trimmed (s : String) : Prop :=
  jsTrim s = s

/-- A clean string: trim-stable and non-empty (exactly what survives
`toStringArray`). -/
def Clean (s : String) : Prop :=
  jsTrim s = s ∧ s ≠ ""

instance decTrimmed (s : String) : Decidable (Trimmed s) :=
  inferInstanceAs (Decidable (jsTrim s = s))

instance decClean (s : String) : Decidable (Clean s) :=
  inferInstanceAs (Decidable (jsTrim s = s ∧ s ≠ ""))

/-- The completeness contract of a `CanonicalSpec`: every fixed-length list
is at its exact length and the score is a bounded integer.  This is the
"zero missing fields and all fixed-length invariants satisfied" shape the
specification demands of every normalizer output. -/
def CanonicalComplete (s : CanonicalSpec) : Prop :=
  s.interview.followUp.length = 3 ∧
  s.flowSteps.length = 5 ∧
  s.ambiguities.confirmQuestions.length = 3 ∧
  s.risks.length = 3 ∧
  s.testScenarios.length = 3 ∧
  s.todayTasks.length = 3 ∧
  s.layerGuide.length = 5 ∧
  0 ≤ s.completeness.score ∧ s.completeness.score ≤ 100

/-- Full canonicity: every invariant `normalizeStandardOutput` establishes
on its output.  (The impact-permission entries are only guaranteed
non-empty, not trim-stable: the fallback `"<role> 권한 검토 필요"` keeps a
leading space when the role is empty.) -/
structure Canon (s : CanonicalSpec) : Prop where
  summary_t : Trimmed s.summary
  who_t : Trimmed s.problemFrame.who
  when_t : Trimmed s.problemFrame.«when»
  what_t : Trimmed s.problemFrame.what
  why_t : Trimmed s.problemFrame.why
  succ_t : Trimmed s.problemFrame.successCriteria
  followUp_len : s.interview.followUp.length = 3
  followUp_nodup : s.interview.followUp.Nodup
  followUp_clean : ∀ x ∈ s.interview.followUp, Clean x
  roles_ok : ∀ r ∈ s.roles, Trimmed r.role ∧ Trimmed r.description ∧
    (r.role ≠ "" ∨ r.description ≠ "")
  must_clean : ∀ x ∈ s.features.must, Clean x
  nice_clean : ∀ x ∈ s.features.niceToHave, Clean x
  flow_len : s.flowSteps.length = 5
  flow_clean : ∀ x ∈ s.flowSteps, Clean x
  inputFields_ok : ∀ f ∈ s.inputFields, Trimmed f.name ∧ Trimmed f.type ∧
    Trimmed f.«example» ∧ (f.name ≠ "" ∨ f.type ≠ "" ∨ f.«example» ≠ "")
  perms_ok : ∀ p ∈ s.permissionRules, Trimmed p.role ∧ Trimmed p.notes ∧
    (p.role ≠ "" ∨ p.notes ≠ "")
  missing_clean : ∀ x ∈ s.ambiguities.missingInfo, Clean x
  confirm_len : s.ambiguities.confirmQuestions.length = 3
  confirm_clean : ∀ x ∈ s.ambiguities.confirmQuestions, Clean x
  risks_len : s.risks.length = 3
  risks_clean : ∀ x ∈ s.risks, Clean x
  tests_len : s.testScenarios.length = 3
  tests_clean : ∀ x ∈ s.testScenarios, Clean x
  tasks_len : s.todayTasks.length = 3
  tasks_clean : ∀ x ∈ s.todayTasks, Clean x
  rawReq_t : Trimmed s.requestConversion.raw
  short_clean : Clean s.requestConversion.short
  standard_clean : Clean s.requestConversion.standard
  detailed_clean : Clean s.requestConversion.detailed
  screens_ne : s.impactPreview.screens ≠ []
  screens_clean : ∀ x ∈ s.impactPreview.screens, Clean x
  impPerms_ne : s.impactPreview.permissions ≠ []
  impPerms_nonempty : ∀ x ∈ s.impactPreview.permissions, x ≠ ""
  impTests_ne : s.impactPreview.tests ≠ []
  impTests_clean : ∀ x ∈ s.impactPreview.tests, Clean x
  lg_len : s.layerGuide.length = 5
  lg_ok : ∀ e ∈ s.layerGuide, Trimmed e.layer ∧ Trimmed e.goal ∧ Trimmed e.output ∧
    (e.layer ≠ "" ∨ e.goal ≠ "" ∨ e.output ≠ "")
  score_lb : 0 ≤ s.completeness.score
  score_ub : s.completeness.score ≤ 100
  warnings_clean : ∀ x ∈ s.completeness.warnings, Clean x
  warnings_consistent : s.completeness.warnings = [] → computeMissingWarnings s = []

end VibeSpec

/-! ## Lemmas

The development below establishes: the basic algebra of `jsTrim`; the
behaviour of the coercion primitives; the invariant `Canon` of every
normalizer output; and the fixpoint property of normalization on canonical
documents. -/

namespace VibeSpec

theorem length_dropWhile_le' (p : Char → Bool) (l : List Char) :
    (l.dropWhile p).length ≤ l.length := by
  induction l with
  | nil => simp
  | cons x xs ih =>
    by_cases h : p x
    · simpa [List.dropWhile_cons, h] using Nat.le_trans ih (Nat.le_succ _)
    · simp [List.dropWhile_cons, h]

theorem dropWhile_head?_not (p : Char → Bool) (l : List Char) (c : Char)
    (h : (l.dropWhile p).head? = some c) : p c = false := by
  induction l with
  | nil => simp at h
  | cons x xs ih =>
    by_cases hx : p x
    · exact ih (by simpa [List.dropWhile_cons, hx] using h)
    · simp [List.dropWhile_cons, hx] at h
      subst h
      simpa using hx

theorem dropWhile_eq_self_of_head? (p : Char → Bool) (l : List Char)
    (h : ∀ c, l.head? = some c → p c = false) : l.dropWhile p = l := by
  cases l with
  | nil => rfl
  | cons x xs => simp [List.dropWhile_cons, h x rfl]

theorem dropWhile_ne_imp_lt (p : Char → Bool) (l : List Char)
    (h : l.dropWhile p ≠ l) : (l.dropWhile p).length < l.length := by
  induction l with
  | nil => simp at h
  | cons x xs ih =>
    by_cases hx : p x
    · simp only [List.dropWhile_cons, hx, if_true]
      exact Nat.lt_succ_of_le (length_dropWhile_le' p xs)
    · simp [List.dropWhile_cons, hx] at h

theorem dropWhile_eq_self_of_length (p : Char → Bool) (l : List Char)
    (h : (l.dropWhile p).length = l.length) : l.dropWhile p = l := by
  by_contra hne
  exact absurd h (Nat.ne_of_lt (dropWhile_ne_imp_lt p l hne))

theorem trimData_of_fixed {l : List Char}
    (h1 : l.dropWhile Char.isWhitespace = l)
    (h2 : l.reverse.dropWhile Char.isWhitespace = l.reverse) :
    trimData l = l := by
  unfold trimData
  rw [h1, h2, List.reverse_reverse]

theorem trimData_length_le (l : List Char) : (trimData l).length ≤ l.length := by
  unfold trimData
  calc ((l.dropWhile Char.isWhitespace).reverse.dropWhile Char.isWhitespace).reverse.length
      = ((l.dropWhile Char.isWhitespace).reverse.dropWhile Char.isWhitespace).length := by
        rw [List.length_reverse]
    _ ≤ (l.dropWhile Char.isWhitespace).reverse.length := length_dropWhile_le' _ _
    _ = (l.dropWhile Char.isWhitespace).length := by rw [List.length_reverse]
    _ ≤ l.length := length_dropWhile_le' _ _

theorem trimData_fixed_pieces {l : List Char} (h : trimData l = l) :
    l.dropWhile Char.isWhitespace = l ∧
    l.reverse.dropWhile Char.isWhitespace = l.reverse := by
  have hlen : (trimData l).length = l.length := by rw [h]
  have hlen2 : ((l.dropWhile Char.isWhitespace).reverse.dropWhile
      Char.isWhitespace).length ≤ (l.dropWhile Char.isWhitespace).length := by
    calc ((l.dropWhile Char.isWhitespace).reverse.dropWhile Char.isWhitespace).length
        ≤ (l.dropWhile Char.isWhitespace).reverse.length := length_dropWhile_le' _ _
      _ = (l.dropWhile Char.isWhitespace).length := by rw [List.length_reverse]
  have hlen3 : (trimData l).length ≤ (l.dropWhile Char.isWhitespace).length := by
    unfold trimData
    rw [List.length_reverse]
    exact hlen2
  have h4 : (l.dropWhile Char.isWhitespace).length = l.length :=
    Nat.le_antisymm (length_dropWhile_le' _ _) (by omega)
  have h5 : l.dropWhile Char.isWhitespace = l := dropWhile_eq_self_of_length _ _ h4
  refine ⟨h5, ?_⟩
  have h6 : (l.reverse.dropWhile Char.isWhitespace).reverse = l := by
    conv_rhs => rw [← h]
    unfold trimData
    rw [h5]
  calc l.reverse.dropWhile Char.isWhitespace
      = ((l.reverse.dropWhile Char.isWhitespace).reverse).reverse := by
        rw [List.reverse_reverse]
    _ = l.reverse := by rw [h6]

theorem trimData_idem (l : List Char) : trimData (trimData l) = trimData l := by
  set a := l.dropWhile Char.isWhitespace with ha
  set b := a.reverse.dropWhile Char.isWhitespace with hb
  have htd : trimData l = b.reverse := rfl
  have hbsuff : b.reverse <+: a := by
    rw [← List.reverse_suffix]
    simpa [hb] using List.dropWhile_suffix (l := a.reverse) (p := Char.isWhitespace)
  apply trimData_of_fixed
  · rw [htd]
    apply dropWhile_eq_self_of_head?
    intro c hc
    obtain ⟨t, hts⟩ := hbsuff
    have hha : a.head? = some c := by
      rw [← hts]
      cases hbr : b.reverse with
      | nil => rw [hbr] at hc; simp at hc
      | cons y ys =>
        rw [hbr] at hc
        simp at hc
        simp [hbr, hc]
    exact dropWhile_head?_not _ l c (by rw [← ha]; exact hha)
  · rw [htd, List.reverse_reverse]
    apply dropWhile_eq_self_of_head?
    intro c hc
    exact dropWhile_head?_not _ a.reverse c (by rw [← hb]; exact hc)

theorem jsTrim_data (s : String) : (jsTrim s).data = trimData s.data := rfl

theorem trimmed_iff_data (s : String) : Trimmed s ↔ trimData s.data = s.data := by
  cases s with
  | mk d =>
    unfold Trimmed jsTrim
    constructor
    · intro h
      exact congrArg String.data h
    · intro h
      exact congrArg String.mk h

theorem jsTrim_idem (s : String) : jsTrim (jsTrim s) = jsTrim s := by
  have := trimData_idem s.data
  unfold jsTrim
  exact congrArg String.mk this

theorem trimmed_jsTrim (s : String) : Trimmed (jsTrim s) :=
  (trimmed_iff_data _).2 (by rw [jsTrim_data]; exact trimData_idem s.data)

end VibeSpec

namespace VibeSpec

theorem str_data_append (a b : String) : (a ++ b).data = a.data ++ b.data := by
  cases a; cases b; rfl

theorem str_ne_empty_iff_data (a : String) : a ≠ "" ↔ a.data ≠ [] := by
  cases a with
  | mk d =>
    constructor
    · intro h hd
      exact h (by simpa using congrArg String.mk hd)
    · intro h hd
      exact h (congrArg String.data hd)

theorem head?_append_of_ne_nil {α : Type} (l₁ l₂ : List α) (h : l₁ ≠ []) :
    (l₁ ++ l₂).head? = l₁.head? := by
  cases l₁ with
  | nil => exact absurd rfl h
  | cons x xs => rfl

theorem getLast?_append_of_ne_nil' {α : Type} (l₁ l₂ : List α) (h : l₂ ≠ []) :
    (l₁ ++ l₂).getLast? = l₂.getLast? := by
  rw [← List.head?_reverse, ← List.head?_reverse, List.reverse_append]
  exact head?_append_of_ne_nil _ _ (by simpa using h)

theorem head_not_ws_of_trimmed {s : String} (h : Trimmed s) (c : Char)
    (hc : s.data.head? = some c) : c.isWhitespace = false := by
  have h1 := (trimData_fixed_pieces ((trimmed_iff_data s).1 h)).1
  exact dropWhile_head?_not _ s.data c (by rw [h1]; exact hc)

theorem last_not_ws_of_trimmed {s : String} (h : Trimmed s) (c : Char)
    (hc : s.data.getLast? = some c) : c.isWhitespace = false := by
  have h2 := (trimData_fixed_pieces ((trimmed_iff_data s).1 h)).2
  refine dropWhile_head?_not _ s.data.reverse c ?_
  rw [h2, List.head?_reverse]
  exact hc

theorem trimmed_of_ends {s : String}
    (h1 : ∀ c, s.data.head? = some c → c.isWhitespace = false)
    (h2 : ∀ c, s.data.getLast? = some c → c.isWhitespace = false) : Trimmed s := by
  refine (trimmed_iff_data s).2 (trimData_of_fixed ?_ ?_)
  · exact dropWhile_eq_self_of_head? _ _ h1
  · refine dropWhile_eq_self_of_head? _ _ ?_
    intro c hc
    exact h2 c (by rw [← List.head?_reverse]; exact hc)

theorem clean_append {a b : String} (ha : Clean a)
    (hb : b.data.getLast?.map Char.isWhitespace = some false) : Clean (a ++ b) := by
  obtain ⟨hat, hane⟩ := ha
  have hadata : a.data ≠ [] := (str_ne_empty_iff_data a).1 hane
  obtain ⟨c0, hc0, hc0w⟩ : ∃ c, b.data.getLast? = some c ∧ c.isWhitespace = false := by
    cases hb' : b.data.getLast? with
    | none => rw [hb'] at hb; simp at hb
    | some c => rw [hb'] at hb; simp at hb; exact ⟨c, rfl, hb⟩
  have hbdata : b.data ≠ [] := by
    intro hnil
    rw [hnil] at hc0
    simp at hc0
  constructor
  · refine trimmed_of_ends ?_ ?_
    · intro c hc
      rw [str_data_append, head?_append_of_ne_nil _ _ hadata] at hc
      exact head_not_ws_of_trimmed hat c hc
    · intro c hc
      rw [str_data_append, getLast?_append_of_ne_nil' _ _ hbdata] at hc
      rw [hc0] at hc
      cases hc
      exact hc0w
  · intro hempty
    have : (a ++ b).data = [] := by rw [hempty]
    rw [str_data_append] at this
    exact hadata (List.append_eq_nil.1 this).1

theorem clean_append_left {a b : String}
    (ha : a.data.head?.map Char.isWhitespace = some false) (hb : Clean b) :
    Clean (a ++ b) := by
  obtain ⟨hbt, hbne⟩ := hb
  have hbdata : b.data ≠ [] := (str_ne_empty_iff_data b).1 hbne
  obtain ⟨c0, hc0, hc0w⟩ : ∃ c, a.data.head? = some c ∧ c.isWhitespace = false := by
    cases ha' : a.data.head? with
    | none => rw [ha'] at ha; simp at ha
    | some c => rw [ha'] at ha; simp at ha; exact ⟨c, rfl, ha⟩
  have hadata : a.data ≠ [] := by
    intro hnil
    rw [hnil] at hc0
    simp at hc0
  constructor
  · refine trimmed_of_ends ?_ ?_
    · intro c hc
      rw [str_data_append, head?_append_of_ne_nil _ _ hadata, hc0] at hc
      cases hc
      exact hc0w
    · intro c hc
      rw [str_data_append, getLast?_append_of_ne_nil' _ _ hbdata] at hc
      exact last_not_ws_of_trimmed hbt c hc
  · intro hempty
    have : (a ++ b).data = [] := by rw [hempty]
    rw [str_data_append] at this
    exact hadata (List.append_eq_nil.1 this).1

theorem append_ne_empty_of_left {a b : String} (ha : a ≠ "") : a ++ b ≠ "" := by
  intro h
  have : (a ++ b).data = [] := by rw [h]
  rw [str_data_append] at this
  exact (str_ne_empty_iff_data a).1 ha (List.append_eq_nil.1 this).1

end VibeSpec

namespace VibeSpec

theorem toSafeString_trimmed (v : JValue) (fb : String) (hfb : Trimmed fb) :
    Trimmed (toSafeString v fb) := by
  cases v with
  | str s => exact trimmed_jsTrim s
  | undefined => exact hfb
  | null => exact hfb
  | bool b => exact hfb
  | num q => exact hfb
  | arr xs => exact hfb
  | obj fs => exact hfb

theorem toStringArray_clean (v : JValue) : ∀ x ∈ toStringArray v, Clean x := by
  intro x hx
  cases v with
  | arr xs =>
    simp only [toStringArray, List.mem_filter, List.mem_map, decide_eq_true_eq] at hx
    obtain ⟨⟨y, _, rfl⟩, hne⟩ := hx
    exact ⟨toSafeString_trimmed y "" rfl, hne⟩
  | undefined => simp [toStringArray] at hx
  | null => simp [toStringArray] at hx
  | bool b => simp [toStringArray] at hx
  | num q => simp [toStringArray] at hx
  | str s => simp [toStringArray] at hx
  | obj fs => simp [toStringArray] at hx

theorem toStringArray_of_clean (l : List String) (h : ∀ x ∈ l, Clean x) :
    toStringArray (.arr (l.map .str)) = l := by
  induction l with
  | nil => rfl
  | cons x xs ih =>
    have hx := h x (List.mem_cons_self _ _)
    have hxs : toStringArray (.arr (xs.map .str)) = xs :=
      ih (fun y hy => h y (List.mem_cons_of_mem _ hy))
    simp only [toStringArray, List.map_cons, List.filter_cons] at hxs ⊢
    have hts : toSafeString (JValue.str x) = x := hx.1
    rw [hts, decide_eq_true hx.2]
    simp only [if_true]
    exact congrArg (List.cons x) hxs

theorem padLoop_of_ge {α : Type} (tgt : Nat) (gen : Nat → α) (fuel : Nat) (l : List α)
    (h : tgt ≤ l.length) : padLoop tgt gen fuel l = l := by
  cases fuel with
  | zero => rfl
  | succ f => simp [padLoop, Nat.not_lt.2 h]

theorem padLoop_spec {α : Type} (tgt : Nat) (gen : Nat → α) :
    ∀ (fuel : Nat) (l : List α), tgt ≤ l.length + fuel →
    padLoop tgt gen fuel l =
      l ++ (List.range (tgt - l.length)).map (fun i => gen (l.length + i)) := by
  intro fuel
  induction fuel with
  | zero =>
    intro l h
    have h0 : tgt - l.length = 0 := by omega
    simp [padLoop, h0]
  | succ f ih =>
    intro l h
    by_cases hlt : l.length < tgt
    · have harg : tgt ≤ (l ++ [gen l.length]).length + f := by
        simp only [List.length_append, List.length_singleton]
        omega
      rw [padLoop, if_pos hlt, ih _ harg]
      have hlen : (l ++ [gen l.length]).length = l.length + 1 := by simp
      simp only [hlen]
      have hr : tgt - l.length = (tgt - (l.length + 1)) + 1 := by omega
      rw [hr, List.range_succ_eq_map, List.append_assoc]
      congr 1
      simp only [List.map_cons, List.map_map, List.singleton_append, Nat.add_zero]
      congr 1
      apply List.map_congr_left
      intro i _
      simp only [Function.comp_apply]
      congr 1
      omega
    · rw [padLoop, if_neg hlt]
      have h0 : tgt - l.length = 0 := by omega
      simp [h0]

theorem padLoop_length {α : Type} (tgt : Nat) (gen : Nat → α) (fuel : Nat) (l : List α)
    (h1 : l.length ≤ tgt) (h2 : tgt ≤ l.length + fuel) :
    (padLoop tgt gen fuel l).length = tgt := by
  rw [padLoop_spec tgt gen fuel l h2]
  simp
  omega

theorem toFixedLengthStringArray_eq (v : JValue) (n : Nat) (lab : String) :
    toFixedLengthStringArray v n lab =
      (toStringArray v).take n ++
        (List.range (n - ((toStringArray v).take n).length)).map
          (fun i => lab ++ " " ++ natToStr (((toStringArray v).take n).length + i + 1)) := by
  unfold toFixedLengthStringArray
  rw [padLoop_spec]
  · have := List.length_take_le n (toStringArray v)
    omega

theorem toFixedLengthStringArray_length (v : JValue) (n : Nat) (lab : String) :
    (toFixedLengthStringArray v n lab).length = n := by
  unfold toFixedLengthStringArray
  refine padLoop_length _ _ _ _ (List.length_take_le n _) ?_
  have := List.length_take_le n (toStringArray v)
  omega

theorem toFixedLengthStringArray_of_clean (l : List String) (n : Nat) (lab : String)
    (h : ∀ x ∈ l, Clean x) (hlen : l.length = n) :
    toFixedLengthStringArray (.arr (l.map .str)) n lab = l := by
  unfold toFixedLengthStringArray
  rw [toStringArray_of_clean l h]
  rw [← hlen, List.take_length]
  exact padLoop_of_ge _ _ _ _ (by omega)

theorem digitChar_digit : ∀ m, m < 10 → isDigitChar (Char.ofNat (48 + m)) = true := by
  decide

theorem natToStrAux_digits : ∀ (fuel n : Nat) (acc : List Char),
    (∀ c ∈ acc, isDigitChar c = true) →
    ∀ c ∈ natToStrAux fuel n acc, isDigitChar c = true := by
  intro fuel
  induction fuel with
  | zero => intro n acc hacc c hc; exact hacc c hc
  | succ f ih =>
    intro n acc hacc c hc
    rw [natToStrAux] at hc
    have hacc' : ∀ c ∈ Char.ofNat (48 + n % 10) :: acc, isDigitChar c = true := by
      intro d hd
      rcases List.mem_cons.1 hd with rfl | hd'
      · exact digitChar_digit _ (Nat.mod_lt _ (by norm_num))
      · exact hacc d hd'
    by_cases hn : n < 10
    · rw [if_pos hn] at hc
      exact hacc' c hc
    · rw [if_neg hn] at hc
      exact ih (n / 10) _ hacc' c hc

theorem natToStrAux_length : ∀ (fuel n : Nat) (acc : List Char),
    (natToStrAux (fuel + 1) n acc).length ≥ acc.length + 1 := by
  intro fuel
  induction fuel with
  | zero =>
    intro n acc
    rw [natToStrAux]
    by_cases hn : n < 10
    · simp [hn]
    · simp [hn, natToStrAux]
  | succ f ih =>
    intro n acc
    rw [natToStrAux]
    by_cases hn : n < 10
    · simp [hn]
    · rw [if_neg hn]
      have := ih (n / 10) (Char.ofNat (48 + n % 10) :: acc)
      simp at this ⊢
      omega

theorem natToStr_data_digits (n : Nat) : ∀ c ∈ (natToStr n).data, isDigitChar c = true := by
  intro c hc
  exact natToStrAux_digits (n + 1) n [] (by simp) c hc

theorem natToStr_data_ne_nil (n : Nat) : (natToStr n).data ≠ [] := by
  intro h
  have h2 : (natToStrAux (n + 1) n []).length = 0 := by
    have hdef : (natToStr n).data = natToStrAux (n + 1) n [] := rfl
    rw [hdef] at h
    rw [h]
    rfl
  have h3 := natToStrAux_length n n []
  simp at h3
  omega

theorem digit_not_ws {c : Char} (h : isDigitChar c = true) : c.isWhitespace = false := by
  simp only [isDigitChar, Bool.and_eq_true, decide_eq_true_eq] at h
  cases hws : c.isWhitespace
  · rfl
  · exfalso
    simp only [Char.isWhitespace, Bool.or_eq_true, decide_eq_true_eq] at hws
    rcases hws with ((h' | h') | h') | h' <;> (subst h'; exact absurd h (by decide))

theorem natToStr_clean (n : Nat) : Clean (natToStr n) := by
  constructor
  · refine trimmed_of_ends ?_ ?_
    · intro c hc
      exact digit_not_ws (natToStr_data_digits n c (List.mem_of_mem_head? hc))
    · intro c hc
      exact digit_not_ws (natToStr_data_digits n c (List.mem_of_mem_getLast? hc))
  · exact (str_ne_empty_iff_data _).2 (natToStr_data_ne_nil n)

theorem clean_head?_ws {s : String} (h : Clean s) :
    s.data.head?.map Char.isWhitespace = some false := by
  obtain ⟨ht, hne⟩ := h
  have hdata : s.data ≠ [] := (str_ne_empty_iff_data s).1 hne
  cases hd : s.data.head? with
  | none => exact absurd (List.head?_eq_none_iff.1 hd) hdata
  | some c =>
    simp only [Option.map_some']
    rw [head_not_ws_of_trimmed ht c hd]

theorem label_clean {pfx : String} (hp : Clean pfx) (k : Nat) :
    Clean (pfx ++ " " ++ natToStr k) := by
  refine clean_append_left ?_ (natToStr_clean _)
  rw [str_data_append, head?_append_of_ne_nil _ _ ((str_ne_empty_iff_data pfx).1 hp.2)]
  exact clean_head?_ws hp

theorem toFixedLengthStringArray_clean (v : JValue) (n : Nat) (lab : String)
    (hlab : Clean lab) : ∀ x ∈ toFixedLengthStringArray v n lab, Clean x := by
  intro x hx
  rw [toFixedLengthStringArray_eq] at hx
  rcases List.mem_append.1 hx with hx' | hx'
  · exact toStringArray_clean v x (List.mem_of_mem_take hx')
  · obtain ⟨i, _, rfl⟩ := List.mem_map.1 hx'
    exact label_clean hlab _

theorem mem_dedupAux : ∀ (l seen : List String) (x : String),
    x ∈ dedupAux seen l ↔ x ∈ l ∧ x ∉ seen := by
  intro l
  induction l with
  | nil => simp [dedupAux]
  | cons y ys ih =>
    intro seen x
    by_cases hy : y ∈ seen
    · rw [dedupAux, if_pos hy, ih]
      constructor
      · rintro ⟨h1, h2⟩
        exact ⟨List.mem_cons_of_mem _ h1, h2⟩
      · rintro ⟨h1, h2⟩
        rcases List.mem_cons.1 h1 with rfl | h1'
        · exact absurd hy h2
        · exact ⟨h1', h2⟩
    · rw [dedupAux, if_neg hy]
      constructor
      · intro hx
        rcases List.mem_cons.1 hx with rfl | hx'
        · exact ⟨List.mem_cons_self _ _, hy⟩
        · have h3 := (ih _ _).1 hx'
          refine ⟨List.mem_cons_of_mem _ h3.1, ?_⟩
          intro hxs
          exact h3.2 (List.mem_cons_of_mem _ hxs)
      · rintro ⟨h1, h2⟩
        rcases List.mem_cons.1 h1 with rfl | h1'
        · exact List.mem_cons_self _ _
        · by_cases hxy : x = y
          · subst hxy
            exact List.mem_cons_self _ _
          · refine List.mem_cons_of_mem _ ((ih _ _).2 ⟨h1', ?_⟩)
            intro hmem
            rcases List.mem_cons.1 hmem with h | h
            · exact hxy h
            · exact h2 h

theorem nodup_dedupAux : ∀ (l seen : List String), (dedupAux seen l).Nodup := by
  intro l
  induction l with
  | nil => intro seen; simp [dedupAux]
  | cons y ys ih =>
    intro seen
    by_cases hy : y ∈ seen
    · rw [dedupAux, if_pos hy]
      exact ih seen
    · rw [dedupAux, if_neg hy]
      refine List.nodup_cons.2 ⟨?_, ih _⟩
      intro hmem
      exact ((mem_dedupAux ys (y :: seen) y).1 hmem).2 (List.mem_cons_self _ _)

theorem dedupAux_take_prefix : ∀ (f seen t : List String),
    f.Nodup → (∀ x ∈ f, x ∉ seen) →
    (dedupAux seen (f ++ t)).take f.length = f := by
  intro f
  induction f with
  | nil => intro seen t _ _; simp
  | cons x xs ih =>
    intro seen t hnd hns
    have hx : x ∉ seen := hns x (List.mem_cons_self _ _)
    rw [List.cons_append, dedupAux, if_neg hx]
    simp only [List.length_cons, List.take_succ_cons]
    congr 1
    refine ih (x :: seen) t (List.nodup_cons.1 hnd).2 ?_
    intro y hy hmem
    rcases List.mem_cons.1 hmem with rfl | h
    · exact (List.nodup_cons.1 hnd).1 hy
    · exact hns y (List.mem_cons_of_mem _ hy) h

end VibeSpec

namespace VibeSpec

theorem toIntegerInRange_bounds (v : JValue) (k : Int)
    (h : toIntegerInRange v 0 100 = some k) : 0 ≤ k ∧ k ≤ 100 := by
  unfold toIntegerInRange at h
  cases hn : jsToNumber v with
  | none => rw [hn] at h; simp at h
  | some q =>
    rw [hn] at h
    simp only [Option.some.injEq] at h
    subst h
    unfold jsMin jsMax
    split_ifs <;> omega

theorem jsRound_ofInt (k : Int) : jsRound (Frac.ofInt k) = k := by
  show (k * 2 + 1 * 1) / (1 * 2) = k
  omega

theorem toIntegerInRange_ofInt (k : Int) (h1 : 0 ≤ k) (h2 : k ≤ 100) :
    toIntegerInRange (.num (Frac.ofInt k)) 0 100 = some k := by
  have hn : jsToNumber (.num (Frac.ofInt k)) = some (Frac.ofInt k) := rfl
  unfold toIntegerInRange
  rw [hn]
  show some (jsMin 100 (jsMax 0 (jsRound (Frac.ofInt k)))) = some k
  rw [jsRound_ofInt]
  unfold jsMin jsMax
  split_ifs <;> exact congrArg some (by omega)

theorem completenessChecks_length (s : CanonicalSpec) : (completenessChecks s).length = 10 :=
  rfl

theorem computeScoreFromSpec_eq (s : CanonicalSpec) :
    computeScoreFromSpec s =
      10 * (((completenessChecks s).filter (fun b => b)).length : Int) := by
  show jsRound (((Frac.ofNat ((List.filter (fun b => b)
      (completenessChecks s)).length)).div
        (Frac.ofNat (completenessChecks s).length)).mul (Frac.ofNat 100)) =
    10 * (((completenessChecks s).filter (fun b => b)).length : Int)
  rw [completenessChecks_length]
  generalize ((completenessChecks s).filter (fun b => b)).length = p
  simp only [Frac.ofNat, Frac.div, Frac.mul, Frac.add, Frac.floor, jsRound]
  push_cast
  omega

theorem computeScoreFromSpec_bounds (s : CanonicalSpec) :
    0 ≤ computeScoreFromSpec s ∧ computeScoreFromSpec s ≤ 100 := by
  rw [computeScoreFromSpec_eq]
  have hle : ((completenessChecks s).filter (fun b => b)).length ≤ 10 := by
    calc ((completenessChecks s).filter (fun b => b)).length
        ≤ (completenessChecks s).length := List.length_filter_le _ _
      _ = 10 := completenessChecks_length s
  omega

theorem mem_ite_singleton {c : Prop} [Decidable c] {w x : String}
    (h : x ∈ (if c then [w] else [])) : x = w := by
  split at h
  · simpa using h
  · simp at h

theorem computeMissingWarnings_clean (s : CanonicalSpec) :
    ∀ x ∈ computeMissingWarnings s, Clean x := by
  intro x hx
  unfold computeMissingWarnings at hx
  simp only [List.mem_append] at hx
  rcases hx with (((((((((h | h) | h) | h) | h) | h) | h) | h) | h) | h) <;>
    (rw [mem_ite_singleton h]; decide)

end VibeSpec

namespace VibeSpec

theorem append_ne_empty_of_right {a b : String} (hb : b ≠ "") : a ++ b ≠ "" := by
  intro h
  have h2 : (a ++ b).data = [] := by rw [h]
  rw [str_data_append] at h2
  exact (str_ne_empty_iff_data b).1 hb (List.append_eq_nil.1 h2).2

theorem str_head?_append (a b : String) (ha : a ≠ "") :
    (a ++ b).data.head? = a.data.head? := by
  rw [str_data_append]
  exact head?_append_of_ne_nil _ _ ((str_ne_empty_iff_data a).1 ha)

theorem str_getLast?_append (a b : String) (hb : b ≠ "") :
    (a ++ b).data.getLast? = b.data.getLast? := by
  rw [str_data_append]
  exact getLast?_append_of_ne_nil' _ _ ((str_ne_empty_iff_data b).1 hb)

theorem clean_of_ends_str {s : String}
    (h1 : s.data.head?.map Char.isWhitespace = some false)
    (h2 : s.data.getLast?.map Char.isWhitespace = some false) : Clean s := by
  constructor
  · refine trimmed_of_ends ?_ ?_
    · intro c hc
      rw [hc] at h1
      simpa using h1
    · intro c hc
      rw [hc] at h2
      simpa using h2
  · rw [str_ne_empty_iff_data]
    intro hnil
    rw [hnil] at h1
    simp at h1

theorem two_le_length_of_mem_ne {l : List String} {x y : String}
    (hx : x ∈ l) (hy : y ∈ l) (hne : x ≠ y) : 2 ≤ l.length := by
  cases l with
  | nil => simp at hx
  | cons a t =>
    cases t with
    | nil =>
      simp at hx hy
      exact absurd (hx.trans hy.symm) hne
    | cons b t2 => simp [Nat.succ_le_succ, Nat.le_add_left]

theorem map_trim_filter_clean (l : List String) :
    ∀ x ∈ (l.map (fun q => jsTrim q)).filter (fun q => q ≠ ""), Clean x := by
  intro x hx
  simp only [List.mem_filter, List.mem_map, decide_eq_true_eq] at hx
  obtain ⟨⟨y, _, rfl⟩, hne⟩ := hx
  exact ⟨jsTrim_idem y, hne⟩

theorem interview_label_ne_q4 :
    "필요 정보 질문" ++ " " ++ natToStr 3 ≠ interviewFallbackQ4 := by decide

theorem interview_label_ne_q5 :
    "필요 정보 질문" ++ " " ++ natToStr 3 ≠ interviewFallbackQ5 := by decide

theorem q4_ne_q5 : interviewFallbackQ4 ≠ interviewFallbackQ5 := by decide

theorem interview_core (ded : List String)
    (hclean : ∀ x ∈ ded, Clean x) (hnd : ded.Nodup)
    (hq4 : interviewFallbackQ4 ∈ ded) (hq5 : interviewFallbackQ5 ∈ ded) :
    (toFixedLengthStringArray (.arr (ded.map .str)) 3 "필요 정보 질문").length = 3 ∧
    (toFixedLengthStringArray (.arr (ded.map .str)) 3 "필요 정보 질문").Nodup ∧
    ∀ x ∈ toFixedLengthStringArray (.arr (ded.map .str)) 3 "필요 정보 질문", Clean x := by
  refine ⟨toFixedLengthStringArray_length _ _ _, ?_, ?_⟩
  · by_cases hlen : 3 ≤ ded.length
    · have hr : toFixedLengthStringArray (.arr (ded.map .str)) 3 "필요 정보 질문"
          = ded.take 3 := by
        unfold toFixedLengthStringArray
        rw [toStringArray_of_clean ded hclean]
        refine padLoop_of_ge _ _ _ _ ?_
        rw [List.length_take]
        omega
      rw [hr]
      exact (List.take_sublist 3 ded).nodup hnd
    · have h2 : 2 ≤ ded.length := two_le_length_of_mem_ne hq4 hq5 q4_ne_q5
      have hlen2 : ded.length = 2 := by omega
      obtain ⟨a, b, rfl⟩ := List.length_eq_two.1 hlen2
      have hab : a ≠ b := by
        have := List.nodup_cons.1 hnd
        simpa using this.1
      have hmem : (a = interviewFallbackQ4 ∨ a = interviewFallbackQ5) ∧
          (b = interviewFallbackQ4 ∨ b = interviewFallbackQ5) := by
        simp only [List.mem_cons, List.mem_singleton, List.not_mem_nil, or_false] at hq4 hq5
        rcases hq4 with h4 | h4 <;> rcases hq5 with h5 | h5
        · exact absurd (h4.trans h5.symm) q4_ne_q5
        · exact ⟨Or.inl h4.symm, Or.inr h5.symm⟩
        · exact ⟨Or.inr h5.symm, Or.inl h4.symm⟩
        · exact absurd (h4.trans h5.symm) q4_ne_q5
      have hr : toFixedLengthStringArray (.arr ([a, b].map .str)) 3 "필요 정보 질문"
          = [a, b, "필요 정보 질문" ++ " " ++ natToStr 3] := by
        unfold toFixedLengthStringArray
        rw [toStringArray_of_clean _ hclean]
        rw [List.take_of_length_le (by simp)]
        rw [padLoop_spec _ _ _ _ (by simp)]
        rfl
      rw [hr]
      have hal : a ≠ "필요 정보 질문" ++ " " ++ natToStr 3 := by
        rcases hmem.1 with h | h <;> rw [h]
        · exact fun hh => interview_label_ne_q4 hh.symm
        · exact fun hh => interview_label_ne_q5 hh.symm
      have hbl : b ≠ "필요 정보 질문" ++ " " ++ natToStr 3 := by
        rcases hmem.2 with h | h <;> rw [h]
        · exact fun hh => interview_label_ne_q4 hh.symm
        · exact fun hh => interview_label_ne_q5 hh.symm
      refine List.nodup_cons.2 ⟨?_, List.nodup_cons.2 ⟨?_, List.nodup_singleton _⟩⟩
      · intro hmem'
        rcases List.mem_cons.1 hmem' with h | h
        · exact hab h
        · rcases List.mem_cons.1 h with h' | h'
          · exact hal h'
          · simp at h'
      · intro hmem'
        rcases List.mem_cons.1 hmem' with h | h
        · exact hbl h
        · simp at h
  · intro x hx
    rw [toFixedLengthStringArray_eq] at hx
    rcases List.mem_append.1 hx with hx' | hx'
    · rw [toStringArray_of_clean ded hclean] at hx'
      exact hclean x (List.mem_of_mem_take hx')
    · obtain ⟨i, _, rfl⟩ := List.mem_map.1 hx'
      exact label_clean (by decide) _

theorem buildRequiredInterviewQuestions_spec (pf : ProblemFrame) (iv amb : JValue) :
    (buildRequiredInterviewQuestions pf iv amb).length = 3 ∧
    (buildRequiredInterviewQuestions pf iv amb).Nodup ∧
    ∀ x ∈ buildRequiredInterviewQuestions pf iv amb, Clean x := by
  unfold buildRequiredInterviewQuestions
  refine interview_core _ ?_ ?_ ?_ ?_
  · intro x hx
    have hx' := (mem_dedupAux _ _ _).1 hx
    exact map_trim_filter_clean _ x hx'.1
  · exact nodup_dedupAux _ _
  · refine (mem_dedupAux _ _ _).2 ⟨?_, by simp⟩
    refine List.mem_filter.2 ⟨?_, by decide⟩
    refine List.mem_map.2 ⟨interviewFallbackQ4, ?_, by decide⟩
    refine List.mem_append_right _ ?_
    exact List.mem_cons_of_mem _ (List.mem_cons_of_mem _ (List.mem_cons_of_mem _
      (List.mem_cons_self _ _)))
  · refine (mem_dedupAux _ _ _).2 ⟨?_, by simp⟩
    refine List.mem_filter.2 ⟨?_, by decide⟩
    refine List.mem_map.2 ⟨interviewFallbackQ5, ?_, by decide⟩
    refine List.mem_append_right _ ?_
    exact List.mem_cons_of_mem _ (List.mem_cons_of_mem _ (List.mem_cons_of_mem _
      (List.mem_cons_of_mem _ (List.mem_cons_self _ _))))

end VibeSpec

namespace VibeSpec

theorem rolesOf_ok (safe : JValue) : ∀ r ∈ rolesOf safe,
    Trimmed r.role ∧ Trimmed r.description ∧ (r.role ≠ "" ∨ r.description ≠ "") := by
  intro r hr
  unfold rolesOf at hr
  rw [List.mem_filter] at hr
  obtain ⟨hmap, hcond⟩ := hr
  obtain ⟨item, _, rfl⟩ := List.mem_map.1 hmap
  exact ⟨toSafeString_trimmed _ _ rfl, toSafeString_trimmed _ _ rfl, by simpa using hcond⟩

theorem inputFieldsOf_ok (safe : JValue) : ∀ f ∈ inputFieldsOf safe,
    Trimmed f.name ∧ Trimmed f.type ∧ Trimmed f.«example» ∧
    (f.name ≠ "" ∨ f.type ≠ "" ∨ f.«example» ≠ "") := by
  intro f hf
  unfold inputFieldsOf at hf
  rw [List.mem_filter] at hf
  obtain ⟨hmap, hcond⟩ := hf
  obtain ⟨item, _, rfl⟩ := List.mem_map.1 hmap
  exact ⟨toSafeString_trimmed _ _ rfl, toSafeString_trimmed _ _ rfl,
    toSafeString_trimmed _ _ rfl, by simpa using hcond⟩

theorem permissionsOf_ok (safe : JValue) : ∀ p ∈ permissionsOf safe,
    Trimmed p.role ∧ Trimmed p.notes ∧ (p.role ≠ "" ∨ p.notes ≠ "") := by
  intro p hp
  unfold permissionsOf at hp
  rw [List.mem_filter] at hp
  obtain ⟨hmap, hcond⟩ := hp
  obtain ⟨item, _, rfl⟩ := List.mem_map.1 hmap
  exact ⟨toSafeString_trimmed _ _ rfl, toSafeString_trimmed _ _ rfl, by simpa using hcond⟩

theorem orDefault_trimmed {a b : String} (ha : Trimmed a) (hb : Trimmed b) :
    Trimmed (orDefault a b) := by
  unfold orDefault
  split
  · exact hb
  · exact ha

theorem orDefault_clean {a b : String} (ha : Trimmed a) (hb : Clean b) :
    Clean (orDefault a b) := by
  unfold orDefault
  split
  · exact hb
  · next h => exact ⟨ha, h⟩

theorem clean_L_label (n : Nat) : Clean ("L" ++ natToStr n) := by
  refine clean_append_left ?_ (natToStr_clean n)
  decide

theorem defaultLayerGuide_getD_props : ∀ j, j < 5 →
    Trimmed (defaultLayerGuide.getD j ⟨"", "", ""⟩).layer ∧
    Trimmed (defaultLayerGuide.getD j ⟨"", "", ""⟩).goal ∧
    Trimmed (defaultLayerGuide.getD j ⟨"", "", ""⟩).output ∧
    ((defaultLayerGuide.getD j ⟨"", "", ""⟩).layer ≠ "" ∨
     (defaultLayerGuide.getD j ⟨"", "", ""⟩).goal ≠ "" ∨
     (defaultLayerGuide.getD j ⟨"", "", ""⟩).output ≠ "") := by
  decide

theorem defaultLayerGuide_getD_trimmed (j : Nat) :
    Trimmed (defaultLayerGuide.getD j ⟨"", "", ""⟩).layer ∧
    Trimmed (defaultLayerGuide.getD j ⟨"", "", ""⟩).goal ∧
    Trimmed (defaultLayerGuide.getD j ⟨"", "", ""⟩).output := by
  by_cases h : j < 5
  · obtain ⟨h1, h2, h3, _⟩ := defaultLayerGuide_getD_props j h
    exact ⟨h1, h2, h3⟩
  · have hd : defaultLayerGuide.getD j ⟨"", "", ""⟩ = ⟨"", "", ""⟩ := by
      refine List.getD_eq_default _ _ ?_
      simp only [defaultLayerGuide, List.length_cons, List.length_nil]
      omega
    rw [hd]
    exact ⟨rfl, rfl, rfl⟩

theorem normalizeLayerGuideItem_trimmed (idx : Nat) (item : JValue) :
    Trimmed (normalizeLayerGuideItem idx item).layer ∧
    Trimmed (normalizeLayerGuideItem idx item).goal ∧
    Trimmed (normalizeLayerGuideItem idx item).output := by
  obtain ⟨h1, h2, h3⟩ := defaultLayerGuide_getD_trimmed idx
  refine ⟨toSafeString_trimmed _ _ ?_, toSafeString_trimmed _ _ ?_,
    toSafeString_trimmed _ _ ?_⟩
  · exact orDefault_trimmed h1 (clean_L_label (idx + 1)).1
  · exact orDefault_trimmed h2 rfl
  · exact orDefault_trimmed h3 rfl

theorem normalizeLayerGuide_length (v : JValue) : (normalizeLayerGuide v).length = 5 := by
  unfold normalizeLayerGuide
  refine padLoop_length _ _ _ _ (List.length_take_le _ _) ?_
  omega

theorem normalizeLayerGuide_ok (v : JValue) : ∀ e ∈ normalizeLayerGuide v,
    Trimmed e.layer ∧ Trimmed e.goal ∧ Trimmed e.output ∧
    (e.layer ≠ "" ∨ e.goal ≠ "" ∨ e.output ≠ "") := by
  intro e he
  unfold normalizeLayerGuide at he
  rw [padLoop_spec _ _ _ _ (by omega)] at he
  rcases List.mem_append.1 he with h | h
  · have h' := List.mem_of_mem_take h
    rw [List.mem_filter] at h'
    obtain ⟨hmap, hcond⟩ := h'
    obtain ⟨p, _, rfl⟩ := List.mem_map.1 hmap
    obtain ⟨h1, h2, h3⟩ := normalizeLayerGuideItem_trimmed p.1 p.2
    exact ⟨h1, h2, h3, by simpa using hcond⟩
  · obtain ⟨i, hi, rfl⟩ := List.mem_map.1 h
    rw [List.mem_range] at hi
    have hlt : (List.take 5 ((List.enum (match v with
        | JValue.arr xs => xs
        | _ => [])).map (fun p => normalizeLayerGuideItem p.1 p.2) |>.filter
        (fun e => e.layer ≠ "" ∨ e.goal ≠ "" ∨ e.output ≠ ""))).length + i < 5 := by
      omega
    obtain ⟨h1, h2, h3, h4⟩ := defaultLayerGuide_getD_props _ hlt
    exact ⟨h1, h2, h3, h4⟩

theorem headD_trimmed (l : List String) (h : ∀ x ∈ l, Clean x) : Trimmed (l.headD "") := by
  cases l with
  | nil => rfl
  | cons x xs => exact (h x (List.mem_cons_self _ _)).1

theorem buildFallbackRequests_clean (summary : String) (mustItems tests : List String)
    (hs : Trimmed summary) (hm : ∀ x ∈ mustItems, Clean x) (ht : ∀ x ∈ tests, Clean x) :
    Clean (buildFallbackRequests summary mustItems tests).short ∧
    Clean (buildFallbackRequests summary mustItems tests).standard ∧
    Clean (buildFallbackRequests summary mustItems tests).detailed := by
  have hheadline : Clean (orDefault summary "기능 개선 요청") :=
    orDefault_clean hs (by decide)
  have hmust : Clean (orDefault (mustItems.headD "") "핵심 기능") :=
    orDefault_clean (headD_trimmed _ hm) (by decide)
  have htest : Clean (orDefault (tests.headD "") "정상 시나리오 테스트") :=
    orDefault_clean (headD_trimmed _ ht) (by decide)
  refine ⟨?_, ?_, ?_⟩
  · exact clean_append hmust (by decide)
  · show Clean (orDefault summary "기능 개선 요청" ++ ". 우선순위는 "
      ++ orDefault (mustItems.headD "") "핵심 기능" ++ "이며, 완료 기준은 "
      ++ orDefault (tests.headD "") "정상 시나리오 테스트" ++ " 통과입니다.")
    have hne1 : orDefault summary "기능 개선 요청" ≠ "" := hheadline.2
    have hne2 := append_ne_empty_of_left (b := ". 우선순위는 ") hne1
    have hne3 := append_ne_empty_of_left
      (b := orDefault (mustItems.headD "") "핵심 기능") hne2
    have hne4 := append_ne_empty_of_left (b := "이며, 완료 기준은 ") hne3
    have hne5 := append_ne_empty_of_left
      (b := orDefault (tests.headD "") "정상 시나리오 테스트") hne4
    refine clean_of_ends_str ?_ ?_
    · rw [str_head?_append _ _ hne5, str_head?_append _ _ hne4,
        str_head?_append _ _ hne3, str_head?_append _ _ hne2, str_head?_append _ _ hne1]
      exact clean_head?_ws hheadline
    · rw [str_getLast?_append _ _ (by decide : " 통과입니다." ≠ "")]
      decide
  · show Clean (orDefault summary "기능 개선 요청" ++ "\n- 우선 구현: "
      ++ orDefault (mustItems.headD "") "핵심 기능" ++ "\n- 확인 기준: "
      ++ orDefault (tests.headD "") "정상 시나리오 테스트"
      ++ "\n- 실패 시 처리: 입력 누락/권한 없음/유효성 실패 케이스를 분리해 오류 메시지를 제공해주세요.")
    have hne1 : orDefault summary "기능 개선 요청" ≠ "" := hheadline.2
    have hne2 := append_ne_empty_of_left (b := "\n- 우선 구현: ") hne1
    have hne3 := append_ne_empty_of_left
      (b := orDefault (mustItems.headD "") "핵심 기능") hne2
    have hne4 := append_ne_empty_of_left (b := "\n- 확인 기준: ") hne3
    have hne5 := append_ne_empty_of_left
      (b := orDefault (tests.headD "") "정상 시나리오 테스트") hne4
    refine clean_of_ends_str ?_ ?_
    · rw [str_head?_append _ _ hne5, str_head?_append _ _ hne4,
        str_head?_append _ _ hne3, str_head?_append _ _ hne2, str_head?_append _ _ hne1]
      exact clean_head?_ws hheadline
    · rw [str_getLast?_append _ _
        (by decide : "\n- 실패 시 처리: 입력 누락/권한 없음/유효성 실패 케이스를 분리해 오류 메시지를 제공해주세요." ≠ "")]
      decide

end VibeSpec

namespace VibeSpec

set_option maxHeartbeats 1600000

theorem normalize_summary (raw : JValue) :
    (normalizeStandardOutput raw).summary = summaryOf (safeOf raw) := rfl

theorem normalize_problemFrame (raw : JValue) :
    (normalizeStandardOutput raw).problemFrame = problemFrameOf (safeOf raw) := rfl

theorem normalize_interview (raw : JValue) :
    (normalizeStandardOutput raw).interview.followUp =
      buildRequiredInterviewQuestions (problemFrameOf (safeOf raw))
        (interviewSourceOf (safeOf raw)) (ambiguitiesSourceOf (safeOf raw)) := rfl

theorem normalize_roles (raw : JValue) :
    (normalizeStandardOutput raw).roles = rolesOf (safeOf raw) := rfl

theorem normalize_must (raw : JValue) :
    (normalizeStandardOutput raw).features.must =
      toStringArray (jOr (jGet (featuresSourceOf (safeOf raw)) K.MUST)
        (jGet (featuresSourceOf (safeOf raw)) "must")) := rfl

theorem normalize_nice (raw : JValue) :
    (normalizeStandardOutput raw).features.niceToHave =
      toStringArray (jOr (jGet (featuresSourceOf (safeOf raw)) K.NICE)
        (jGet (featuresSourceOf (safeOf raw)) "nice_to_have")) := rfl

theorem normalize_flowSteps (raw : JValue) :
    (normalizeStandardOutput raw).flowSteps =
      toFixedLengthStringArray (jOr (jGet (safeOf raw) K.FLOW)
        (jGet (safeOf raw) "user_flow_steps")) 5 "사용자 흐름 단계" := rfl

theorem normalize_inputFields (raw : JValue) :
    (normalizeStandardOutput raw).inputFields = inputFieldsOf (safeOf raw) := rfl

theorem normalize_permissionRules (raw : JValue) :
    (normalizeStandardOutput raw).permissionRules = permissionsOf (safeOf raw) := rfl

theorem normalize_missingInfo (raw : JValue) :
    (normalizeStandardOutput raw).ambiguities.missingInfo =
      toStringArray (jOr (jGet (ambiguitiesSourceOf (safeOf raw)) K.MISSING)
        (jGet (ambiguitiesSourceOf (safeOf raw)) "missing_information")) := rfl

theorem normalize_confirmQuestions (raw : JValue) :
    (normalizeStandardOutput raw).ambiguities.confirmQuestions =
      toFixedLengthStringArray (jOr (jGet (ambiguitiesSourceOf (safeOf raw)) K.QUESTIONS)
        (jGet (ambiguitiesSourceOf (safeOf raw)) "questions")) 3 "확인 질문" := rfl

theorem normalize_risks (raw : JValue) :
    (normalizeStandardOutput raw).risks =
      toFixedLengthStringArray (jOr (jGet (safeOf raw) K.RISKS)
        (jGet (safeOf raw) "risks")) 3 "리스크" := rfl

theorem normalize_testScenarios (raw : JValue) :
    (normalizeStandardOutput raw).testScenarios =
      toFixedLengthStringArray (jOr (jGet (safeOf raw) K.TESTS)
        (jGet (safeOf raw) "test_scenarios")) 3 "테스트 시나리오" := rfl

theorem normalize_todayTasks (raw : JValue) :
    (normalizeStandardOutput raw).todayTasks =
      toFixedLengthStringArray (jOr (jGet (safeOf raw) K.NEXT)
        (jGet (safeOf raw) "next_steps_today")) 3 "오늘 할 일" := rfl

theorem normalize_layerGuide (raw : JValue) :
    (normalizeStandardOutput raw).layerGuide =
      normalizeLayerGuide (jOr (jGet (safeOf raw) K.LAYER_GUIDE)
        (jGet (safeOf raw) "layer_guide")) := rfl

theorem normalize_requestConversion (raw : JValue) :
    (normalizeStandardOutput raw).requestConversion =
      (withRequestFallbacks (baseSpecOf raw)).requestConversion := rfl

theorem normalize_impactPreview (raw : JValue) :
    (normalizeStandardOutput raw).impactPreview =
      (withImpactFallbacks (withRequestFallbacks (baseSpecOf raw))).impactPreview := rfl

theorem normalize_completeness (raw : JValue) :
    (normalizeStandardOutput raw).completeness =
      completenessOf raw (withImpactFallbacks (withRequestFallbacks (baseSpecOf raw))) := rfl

theorem withRequest_raw (s : CanonicalSpec) :
    (withRequestFallbacks s).requestConversion.raw = s.requestConversion.raw := rfl

theorem withRequest_short (s : CanonicalSpec) :
    (withRequestFallbacks s).requestConversion.short =
      if s.requestConversion.short = "" then
        (buildFallbackRequests s.summary s.features.must s.testScenarios).short
      else s.requestConversion.short := rfl

theorem withRequest_standard (s : CanonicalSpec) :
    (withRequestFallbacks s).requestConversion.standard =
      if s.requestConversion.standard = "" then
        (buildFallbackRequests s.summary s.features.must s.testScenarios).standard
      else s.requestConversion.standard := rfl

theorem withRequest_detailed (s : CanonicalSpec) :
    (withRequestFallbacks s).requestConversion.detailed =
      if s.requestConversion.detailed = "" then
        (buildFallbackRequests s.summary s.features.must s.testScenarios).detailed
      else s.requestConversion.detailed := rfl

theorem withImpact_screens (s : CanonicalSpec) :
    (withImpactFallbacks s).impactPreview.screens =
      if s.impactPreview.screens.length = 0 then
        s.flowSteps.map (fun step => step ++ " 화면 영향 가능")
      else s.impactPreview.screens := rfl

theorem withImpact_permissions (s : CanonicalSpec) :
    (withImpactFallbacks s).impactPreview.permissions =
      if s.impactPreview.permissions.length = 0 then
        (if s.permissionRules.length ≠ 0 then
          s.permissionRules.map (fun rule => rule.role ++ " 권한 검토 필요")
        else ["역할별 CRUD 권한 매트릭스 재검토 필요"])
      else s.impactPreview.permissions := rfl

theorem withImpact_tests (s : CanonicalSpec) :
    (withImpactFallbacks s).impactPreview.tests =
      if s.impactPreview.tests.length = 0 then
        s.testScenarios.map (fun item => item ++ " 검증 케이스 영향")
      else s.impactPreview.tests := rfl

theorem completenessOf_score (raw : JValue) (s : CanonicalSpec) :
    (completenessOf raw s).score = (providedScoreOf raw).getD (computeScoreFromSpec s) := rfl

theorem completenessOf_warnings (raw : JValue) (s : CanonicalSpec) :
    (completenessOf raw s).warnings =
      if providedWarningsOf raw ≠ [] then providedWarningsOf raw
      else computeMissingWarnings s := rfl

theorem computeMissingWarnings_normalize (raw : JValue) :
    computeMissingWarnings (normalizeStandardOutput raw) =
      computeMissingWarnings (withImpactFallbacks (withRequestFallbacks (baseSpecOf raw))) :=
  rfl

theorem stage1_summary (raw : JValue) :
    (withRequestFallbacks (baseSpecOf raw)).summary = summaryOf (safeOf raw) := rfl

theorem stage1_must (raw : JValue) :
    (withRequestFallbacks (baseSpecOf raw)).features.must =
      (normalizeStandardOutput raw).features.must := rfl

theorem stage1_tests (raw : JValue) :
    (withRequestFallbacks (baseSpecOf raw)).testScenarios =
      (normalizeStandardOutput raw).testScenarios := rfl

theorem base_short (raw : JValue) :
    (baseSpecOf raw).requestConversion.short =
      toSafeString (jOr (jGet (requestSourceOf (safeOf raw)) K.SHORT_REQUEST)
        (jGet (requestSourceOf (safeOf raw)) "short")) := rfl

theorem base_standard (raw : JValue) :
    (baseSpecOf raw).requestConversion.standard =
      toSafeString (jOr (jGet (requestSourceOf (safeOf raw)) K.STANDARD_REQUEST)
        (jGet (requestSourceOf (safeOf raw)) "standard")) := rfl

theorem base_detailed (raw : JValue) :
    (baseSpecOf raw).requestConversion.detailed =
      toSafeString (jOr (jGet (requestSourceOf (safeOf raw)) K.DETAILED_REQUEST)
        (jGet (requestSourceOf (safeOf raw)) "detailed")) := rfl

theorem base_screens (raw : JValue) :
    (withRequestFallbacks (baseSpecOf raw)).impactPreview.screens =
      toStringArray (jOr (jGet (impactSourceOf (safeOf raw)) K.IMPACT_SCREENS)
        (jGet (impactSourceOf (safeOf raw)) "screens")) := rfl

theorem base_impPerms (raw : JValue) :
    (withRequestFallbacks (baseSpecOf raw)).impactPreview.permissions =
      toStringArray (jOr (jGet (impactSourceOf (safeOf raw)) K.IMPACT_PERMISSIONS)
        (jGet (impactSourceOf (safeOf raw)) "permissions")) := rfl

theorem base_impTests (raw : JValue) :
    (withRequestFallbacks (baseSpecOf raw)).impactPreview.tests =
      toStringArray (jOr (jGet (impactSourceOf (safeOf raw)) K.IMPACT_TESTS)
        (jGet (impactSourceOf (safeOf raw)) "tests")) := rfl

end VibeSpec

namespace VibeSpec

set_option maxHeartbeats 1600000

theorem canon_normalize (raw : JValue) : Canon (normalizeStandardOutput raw) := by
  refine
    { summary_t := ?_, who_t := ?_, when_t := ?_, what_t := ?_, why_t := ?_, succ_t := ?_,
      followUp_len := ?_, followUp_nodup := ?_, followUp_clean := ?_, roles_ok := ?_,
      must_clean := ?_, nice_clean := ?_, flow_len := ?_, flow_clean := ?_,
      inputFields_ok := ?_, perms_ok := ?_, missing_clean := ?_, confirm_len := ?_,
      confirm_clean := ?_, risks_len := ?_, risks_clean := ?_, tests_len := ?_,
      tests_clean := ?_, tasks_len := ?_, tasks_clean := ?_, rawReq_t := ?_,
      short_clean := ?_, standard_clean := ?_, detailed_clean := ?_, screens_ne := ?_,
      screens_clean := ?_, impPerms_ne := ?_, impPerms_nonempty := ?_, impTests_ne := ?_,
      impTests_clean := ?_, lg_len := ?_, lg_ok := ?_, score_lb := ?_, score_ub := ?_,
      warnings_clean := ?_, warnings_consistent := ?_ }
  · rw [normalize_summary]
    exact toSafeString_trimmed _ _ rfl
  · rw [normalize_problemFrame]
    exact toSafeString_trimmed _ _ rfl
  · rw [normalize_problemFrame]
    exact toSafeString_trimmed _ _ rfl
  · rw [normalize_problemFrame]
    exact toSafeString_trimmed _ _ rfl
  · rw [normalize_problemFrame]
    exact toSafeString_trimmed _ _ rfl
  · rw [normalize_problemFrame]
    exact toSafeString_trimmed _ _ rfl
  · rw [normalize_interview]
    exact (buildRequiredInterviewQuestions_spec _ _ _).1
  · rw [normalize_interview]
    exact (buildRequiredInterviewQuestions_spec _ _ _).2.1
  · rw [normalize_interview]
    exact (buildRequiredInterviewQuestions_spec _ _ _).2.2
  · rw [normalize_roles]
    exact rolesOf_ok _
  · rw [normalize_must]
    exact toStringArray_clean _
  · rw [normalize_nice]
    exact toStringArray_clean _
  · rw [normalize_flowSteps]
    exact toFixedLengthStringArray_length _ _ _
  · rw [normalize_flowSteps]
    exact toFixedLengthStringArray_clean _ _ _ (by decide)
  · rw [normalize_inputFields]
    exact inputFieldsOf_ok _
  · rw [normalize_permissionRules]
    exact permissionsOf_ok _
  · rw [normalize_missingInfo]
    exact toStringArray_clean _
  · rw [normalize_confirmQuestions]
    exact toFixedLengthStringArray_length _ _ _
  · rw [normalize_confirmQuestions]
    exact toFixedLengthStringArray_clean _ _ _ (by decide)
  · rw [normalize_risks]
    exact toFixedLengthStringArray_length _ _ _
  · rw [normalize_risks]
    exact toFixedLengthStringArray_clean _ _ _ (by decide)
  · rw [normalize_testScenarios]
    exact toFixedLengthStringArray_length _ _ _
  · rw [normalize_testScenarios]
    exact toFixedLengthStringArray_clean _ _ _ (by decide)
  · rw [normalize_todayTasks]
    exact toFixedLengthStringArray_length _ _ _
  · rw [normalize_todayTasks]
    exact toFixedLengthStringArray_clean _ _ _ (by decide)
  · rw [normalize_requestConversion, withRequest_raw]
    exact toSafeString_trimmed _ _ (toSafeString_trimmed _ _ rfl)
  · rw [normalize_requestConversion, withRequest_short]
    by_cases h : (baseSpecOf raw).requestConversion.short = ""
    · rw [if_pos h]
      exact (buildFallbackRequests_clean _ _ _
        (show Trimmed (baseSpecOf raw).summary from toSafeString_trimmed _ _ rfl)
        (toStringArray_clean _) (toFixedLengthStringArray_clean _ _ _ (by decide))).1
    · rw [if_neg h]
      exact ⟨toSafeString_trimmed _ _ rfl, h⟩
  · rw [normalize_requestConversion, withRequest_standard]
    by_cases h : (baseSpecOf raw).requestConversion.standard = ""
    · rw [if_pos h]
      exact (buildFallbackRequests_clean _ _ _
        (show Trimmed (baseSpecOf raw).summary from toSafeString_trimmed _ _ rfl)
        (toStringArray_clean _) (toFixedLengthStringArray_clean _ _ _ (by decide))).2.1
    · rw [if_neg h]
      exact ⟨toSafeString_trimmed _ _ rfl, h⟩
  · rw [normalize_requestConversion, withRequest_detailed]
    by_cases h : (baseSpecOf raw).requestConversion.detailed = ""
    · rw [if_pos h]
      exact (buildFallbackRequests_clean _ _ _
        (show Trimmed (baseSpecOf raw).summary from toSafeString_trimmed _ _ rfl)
        (toStringArray_clean _) (toFixedLengthStringArray_clean _ _ _ (by decide))).2.2
    · rw [if_neg h]
      exact ⟨toSafeString_trimmed _ _ rfl, h⟩
  · rw [normalize_impactPreview, withImpact_screens]
    split
    · intro hnil
      have hlen : ((withRequestFallbacks (baseSpecOf raw)).flowSteps.map
          (fun step => step ++ " 화면 영향 가능")).length = 0 := by rw [hnil]; rfl
      rw [List.length_map] at hlen
      have h5 : (withRequestFallbacks (baseSpecOf raw)).flowSteps.length = 5 :=
        toFixedLengthStringArray_length _ _ _
      omega
    · next h =>
      intro hnil
      rw [hnil] at h
      exact h rfl
  · rw [normalize_impactPreview, withImpact_screens]
    split
    · intro x hx
      obtain ⟨step, hstep, rfl⟩ := List.mem_map.1 hx
      refine clean_append ?_ (by decide)
      exact toFixedLengthStringArray_clean _ _ _ (by decide) step hstep
    · rw [base_screens]
      exact toStringArray_clean _
  · rw [normalize_impactPreview, withImpact_permissions]
    split
    · split
      · next h =>
        intro hnil
        have hlen : ((withRequestFallbacks (baseSpecOf raw)).permissionRules.map
            (fun rule => rule.role ++ " 권한 검토 필요")).length = 0 := by rw [hnil]; rfl
        rw [List.length_map] at hlen
        exact h hlen
      · simp
    · next h =>
      intro hnil
      rw [hnil] at h
      exact h rfl
  · rw [normalize_impactPreview, withImpact_permissions]
    split
    · split
      · intro x hx
        obtain ⟨rule, _, rfl⟩ := List.mem_map.1 hx
        exact append_ne_empty_of_right (by decide)
      · intro x hx
        rw [List.mem_singleton] at hx
        rw [hx]
        decide
    · intro x hx
      rw [base_impPerms] at hx
      exact (toStringArray_clean _ x hx).2
  · rw [normalize_impactPreview, withImpact_tests]
    split
    · intro hnil
      have hlen : ((withRequestFallbacks (baseSpecOf raw)).testScenarios.map
          (fun item => item ++ " 검증 케이스 영향")).length = 0 := by rw [hnil]; rfl
      rw [List.length_map] at hlen
      have h3 : (withRequestFallbacks (baseSpecOf raw)).testScenarios.length = 3 :=
        toFixedLengthStringArray_length _ _ _
      omega
    · next h =>
      intro hnil
      rw [hnil] at h
      exact h rfl
  · rw [normalize_impactPreview, withImpact_tests]
    split
    · intro x hx
      obtain ⟨item, hitem, rfl⟩ := List.mem_map.1 hx
      refine clean_append ?_ (by decide)
      exact toFixedLengthStringArray_clean _ _ _ (by decide) item hitem
    · rw [base_impTests]
      exact toStringArray_clean _
  · rw [normalize_layerGuide]
    exact normalizeLayerGuide_length _
  · rw [normalize_layerGuide]
    exact normalizeLayerGuide_ok _
  · rw [normalize_completeness, completenessOf_score]
    cases hp : providedScoreOf raw with
    | none => exact (computeScoreFromSpec_bounds _).1
    | some k =>
      unfold providedScoreOf at hp
      simp only [Option.getD_some]
      exact (toIntegerInRange_bounds _ k hp).1
  · rw [normalize_completeness, completenessOf_score]
    cases hp : providedScoreOf raw with
    | none => exact (computeScoreFromSpec_bounds _).2
    | some k =>
      unfold providedScoreOf at hp
      simp only [Option.getD_some]
      exact (toIntegerInRange_bounds _ k hp).2
  · rw [normalize_completeness, completenessOf_warnings]
    split
    · show ∀ x ∈ providedWarningsOf raw, Clean x
      unfold providedWarningsOf
      exact toStringArray_clean _
    · exact computeMissingWarnings_clean _
  · intro h
    rw [normalize_completeness, completenessOf_warnings] at h
    rw [computeMissingWarnings_normalize]
    by_cases hp : providedWarningsOf raw ≠ []
    · rw [if_pos hp] at h
      exact absurd h hp
    · rw [if_neg hp] at h
      exact h

end VibeSpec

namespace VibeSpec

set_option maxHeartbeats 1600000

theorem map_id_of_mem {α : Type} (l : List α) (f : α → α) (h : ∀ x ∈ l, f x = x) :
    l.map f = l := by
  induction l with
  | nil => rfl
  | cons x xs ih =>
    rw [List.map_cons, h x (List.mem_cons_self _ _),
      ih (fun y hy => h y (List.mem_cons_of_mem _ hy))]

theorem toSafeString_str (x : String) (fb : String) :
    toSafeString (.str x) fb = jsTrim x := rfl

theorem toJ_summarySrc (s : CanonicalSpec) :
    jOr (jGet (safeOf (specToJValue s)) K.SUMMARY)
      (jGet (safeOf (specToJValue s)) "one_line_summary") = .str s.summary := rfl

theorem toJ_pf_who (s : CanonicalSpec) :
    jOr (jGet (problemFrameSourceOf (safeOf (specToJValue s))) K.WHO)
      (jGet (problemFrameSourceOf (safeOf (specToJValue s))) "who") =
      .str s.problemFrame.who := rfl

theorem toJ_pf_when (s : CanonicalSpec) :
    jOr (jGet (problemFrameSourceOf (safeOf (specToJValue s))) K.WHEN)
      (jGet (problemFrameSourceOf (safeOf (specToJValue s))) "when") =
      .str s.problemFrame.«when» := rfl

theorem toJ_pf_what (s : CanonicalSpec) :
    jOr (jGet (problemFrameSourceOf (safeOf (specToJValue s))) K.WHAT)
      (jGet (problemFrameSourceOf (safeOf (specToJValue s))) "what") =
      .str s.problemFrame.what := rfl

theorem toJ_pf_why (s : CanonicalSpec) :
    jOr (jGet (problemFrameSourceOf (safeOf (specToJValue s))) K.WHY)
      (jGet (problemFrameSourceOf (safeOf (specToJValue s))) "why") =
      .str s.problemFrame.why := rfl

theorem toJ_pf_success (s : CanonicalSpec) :
    jOr (jGet (problemFrameSourceOf (safeOf (specToJValue s))) K.SUCCESS)
      (jGet (problemFrameSourceOf (safeOf (specToJValue s))) "success_criteria") =
      .str s.problemFrame.successCriteria := rfl

theorem toJ_followUpSrc (s : CanonicalSpec) :
    jOr (jOr (jGet (interviewSourceOf (safeOf (specToJValue s))) K.FOLLOW_UP)
        (jGet (interviewSourceOf (safeOf (specToJValue s))) "follow_up_questions"))
      (jGet (interviewSourceOf (safeOf (specToJValue s))) "questions") =
      .arr (s.interview.followUp.map .str) := rfl

theorem toJ_mustSrc (s : CanonicalSpec) :
    jOr (jGet (featuresSourceOf (safeOf (specToJValue s))) K.MUST)
      (jGet (featuresSourceOf (safeOf (specToJValue s))) "must") =
      .arr (s.features.must.map .str) := rfl

theorem toJ_niceSrc (s : CanonicalSpec) :
    jOr (jGet (featuresSourceOf (safeOf (specToJValue s))) K.NICE)
      (jGet (featuresSourceOf (safeOf (specToJValue s))) "nice_to_have") =
      .arr (s.features.niceToHave.map .str) := rfl

theorem toJ_flowSrc (s : CanonicalSpec) :
    jOr (jGet (safeOf (specToJValue s)) K.FLOW)
      (jGet (safeOf (specToJValue s)) "user_flow_steps") =
      .arr (s.flowSteps.map .str) := rfl

theorem toJ_rolesSrc (s : CanonicalSpec) :
    arrAlias (safeOf (specToJValue s)) K.ROLES "users_and_roles" =
      s.roles.map roleToJValue := rfl

theorem toJ_inputFieldsSrc (s : CanonicalSpec) :
    arrAlias (safeOf (specToJValue s)) K.INPUT_FIELDS "input_fields" =
      s.inputFields.map inputFieldToJValue := rfl

theorem toJ_permissionsSrc (s : CanonicalSpec) :
    arrAlias (safeOf (specToJValue s)) K.PERMISSIONS "permission_matrix" =
      s.permissionRules.map permissionToJValue := rfl

theorem toJ_missingSrc (s : CanonicalSpec) :
    jOr (jGet (ambiguitiesSourceOf (safeOf (specToJValue s))) K.MISSING)
      (jGet (ambiguitiesSourceOf (safeOf (specToJValue s))) "missing_information") =
      .arr (s.ambiguities.missingInfo.map .str) := rfl

theorem toJ_questionsSrc (s : CanonicalSpec) :
    jOr (jGet (ambiguitiesSourceOf (safeOf (specToJValue s))) K.QUESTIONS)
      (jGet (ambiguitiesSourceOf (safeOf (specToJValue s))) "questions") =
      .arr (s.ambiguities.confirmQuestions.map .str) := rfl

theorem toJ_risksSrc (s : CanonicalSpec) :
    jOr (jGet (safeOf (specToJValue s)) K.RISKS) (jGet (safeOf (specToJValue s)) "risks") =
      .arr (s.risks.map .str) := rfl

theorem toJ_testsSrc (s : CanonicalSpec) :
    jOr (jGet (safeOf (specToJValue s)) K.TESTS)
      (jGet (safeOf (specToJValue s)) "test_scenarios") =
      .arr (s.testScenarios.map .str) := rfl

theorem toJ_tasksSrc (s : CanonicalSpec) :
    jOr (jGet (safeOf (specToJValue s)) K.NEXT)
      (jGet (safeOf (specToJValue s)) "next_steps_today") =
      .arr (s.todayTasks.map .str) := rfl

theorem toJ_layerGuideSrc (s : CanonicalSpec) :
    jOr (jGet (safeOf (specToJValue s)) K.LAYER_GUIDE)
      (jGet (safeOf (specToJValue s)) "layer_guide") =
      .arr (s.layerGuide.map layerGuideEntryToJValue) := rfl

theorem toJ_reqRawSrc (s : CanonicalSpec) :
    jOr (jGet (requestSourceOf (safeOf (specToJValue s))) K.RAW_REQUEST)
      (jGet (requestSourceOf (safeOf (specToJValue s))) "original") =
      .str s.requestConversion.raw := rfl

theorem toJ_reqShortSrc (s : CanonicalSpec) :
    jOr (jGet (requestSourceOf (safeOf (specToJValue s))) K.SHORT_REQUEST)
      (jGet (requestSourceOf (safeOf (specToJValue s))) "short") =
      .str s.requestConversion.short := rfl

theorem toJ_reqStandardSrc (s : CanonicalSpec) :
    jOr (jGet (requestSourceOf (safeOf (specToJValue s))) K.STANDARD_REQUEST)
      (jGet (requestSourceOf (safeOf (specToJValue s))) "standard") =
      .str s.requestConversion.standard := rfl

theorem toJ_reqDetailedSrc (s : CanonicalSpec) :
    jOr (jGet (requestSourceOf (safeOf (specToJValue s))) K.DETAILED_REQUEST)
      (jGet (requestSourceOf (safeOf (specToJValue s))) "detailed") =
      .str s.requestConversion.detailed := rfl

theorem toJ_impScreensSrc (s : CanonicalSpec) :
    jOr (jGet (impactSourceOf (safeOf (specToJValue s))) K.IMPACT_SCREENS)
      (jGet (impactSourceOf (safeOf (specToJValue s))) "screens") =
      .arr (s.impactPreview.screens.map .str) := rfl

theorem toJ_impPermsSrc (s : CanonicalSpec) :
    jOr (jGet (impactSourceOf (safeOf (specToJValue s))) K.IMPACT_PERMISSIONS)
      (jGet (impactSourceOf (safeOf (specToJValue s))) "permissions") =
      .arr (s.impactPreview.permissions.map .str) := rfl

theorem toJ_impTestsSrc (s : CanonicalSpec) :
    jOr (jGet (impactSourceOf (safeOf (specToJValue s))) K.IMPACT_TESTS)
      (jGet (impactSourceOf (safeOf (specToJValue s))) "tests") =
      .arr (s.impactPreview.tests.map .str) := rfl

theorem toJ_scoreSrc (s : CanonicalSpec) :
    jOr (jGet (completenessSourceOf (safeOf (specToJValue s))) K.SCORE)
      (jGet (completenessSourceOf (safeOf (specToJValue s))) "score") =
      .num (Frac.ofInt s.completeness.score) := rfl

theorem toJ_warningsSrc (s : CanonicalSpec) :
    jOr (jGet (completenessSourceOf (safeOf (specToJValue s))) K.WARNINGS)
      (jGet (completenessSourceOf (safeOf (specToJValue s))) "warnings") =
      .arr (s.completeness.warnings.map .str) := rfl

end VibeSpec

namespace VibeSpec

set_option maxHeartbeats 1600000

theorem toJ_summary (s : CanonicalSpec) (h : Trimmed s.summary) :
    summaryOf (safeOf (specToJValue s)) = s.summary := by
  unfold summaryOf
  rw [toJ_summarySrc, toSafeString_str]
  exact h

theorem toJ_problemFrame (s : CanonicalSpec) (h1 : Trimmed s.problemFrame.who)
    (h2 : Trimmed s.problemFrame.«when») (h3 : Trimmed s.problemFrame.what)
    (h4 : Trimmed s.problemFrame.why) (h5 : Trimmed s.problemFrame.successCriteria) :
    problemFrameOf (safeOf (specToJValue s)) = s.problemFrame := by
  simp only [problemFrameOf]
  rw [toJ_pf_who, toJ_pf_when, toJ_pf_what, toJ_pf_why, toJ_pf_success]
  simp only [toSafeString_str]
  rw [h1, h2, h3, h4, h5]

theorem toJ_roles (s : CanonicalSpec)
    (h : ∀ r ∈ s.roles, Trimmed r.role ∧ Trimmed r.description ∧
      (r.role ≠ "" ∨ r.description ≠ "")) :
    rolesOf (safeOf (specToJValue s)) = s.roles := by
  unfold rolesOf
  rw [toJ_rolesSrc, List.map_map]
  have hmap : ∀ r ∈ s.roles,
      ((fun item =>
        let safeItem := if isObject item then item else .obj []
        ({ role := toSafeString (jOr (jGet safeItem K.ROLE) (jGet safeItem "role")),
           description := toSafeString (jOr (jGet safeItem K.DESCRIPTION)
             (jGet safeItem "description")) } : RoleEntry)) ∘ roleToJValue) r = r := by
    intro r hr
    show RoleEntry.mk (jsTrim r.role) (jsTrim r.description) = r
    rw [(h r hr).1, (h r hr).2.1]
  rw [map_id_of_mem _ _ hmap]
  exact List.filter_eq_self.2 (fun r hr => decide_eq_true (h r hr).2.2)

theorem toJ_inputFields (s : CanonicalSpec)
    (h : ∀ f ∈ s.inputFields, Trimmed f.name ∧ Trimmed f.type ∧ Trimmed f.«example» ∧
      (f.name ≠ "" ∨ f.type ≠ "" ∨ f.«example» ≠ "")) :
    inputFieldsOf (safeOf (specToJValue s)) = s.inputFields := by
  unfold inputFieldsOf
  rw [toJ_inputFieldsSrc, List.map_map]
  have hmap : ∀ f ∈ s.inputFields,
      ((fun item =>
        let safeItem := if isObject item then item else .obj []
        ({ name := toSafeString (jOr (jGet safeItem K.NAME) (jGet safeItem "name")),
           type := toSafeString (jOr (jGet safeItem K.TYPE) (jGet safeItem "type")),
           «example» := toSafeString (jOr (jGet safeItem K.EXAMPLE)
             (jGet safeItem "example")) } : InputField)) ∘ inputFieldToJValue) f = f := by
    intro f hf
    show InputField.mk (jsTrim f.name) (jsTrim f.type) (jsTrim f.«example») = f
    rw [(h f hf).1, (h f hf).2.1, (h f hf).2.2.1]
  rw [map_id_of_mem _ _ hmap]
  exact List.filter_eq_self.2 (fun f hf => decide_eq_true (h f hf).2.2.2)

theorem toJ_permissions (s : CanonicalSpec)
    (h : ∀ p ∈ s.permissionRules, Trimmed p.role ∧ Trimmed p.notes ∧
      (p.role ≠ "" ∨ p.notes ≠ "")) :
    permissionsOf (safeOf (specToJValue s)) = s.permissionRules := by
  unfold permissionsOf
  rw [toJ_permissionsSrc, List.map_map]
  have hmap : ∀ p ∈ s.permissionRules,
      ((fun item =>
        let safeItem := if isObject item then item else .obj []
        ({ role := toSafeString (jOr (jGet safeItem K.ROLE) (jGet safeItem "role")),
           canRead := toBoolean (jOr (jGet safeItem K.READ) (jGet safeItem "read")),
           canCreate := toBoolean (jOr (jGet safeItem K.CREATE) (jGet safeItem "create")),
           canUpdate := toBoolean (jOr (jGet safeItem K.UPDATE) (jGet safeItem "update")),
           canDelete := toBoolean (jOr (jGet safeItem K.DELETE) (jGet safeItem "delete")),
           notes := toSafeString (jOr (jGet safeItem K.NOTES)
             (jGet safeItem "notes")) } : PermissionRule)) ∘ permissionToJValue) p = p := by
    intro p hp
    show PermissionRule.mk (jsTrim p.role) p.canRead p.canCreate p.canUpdate p.canDelete
      (jsTrim p.notes) = p
    rw [(h p hp).1, (h p hp).2.1]
  rw [map_id_of_mem _ _ hmap]
  exact List.filter_eq_self.2 (fun p hp => decide_eq_true (h p hp).2.2)

theorem layer_enumFrom_map (l : List LayerGuideEntry)
    (h : ∀ e ∈ l, Trimmed e.layer ∧ Trimmed e.goal ∧ Trimmed e.output) :
    ∀ n, ((l.map layerGuideEntryToJValue).enumFrom n).map
      (fun p => normalizeLayerGuideItem p.1 p.2) = l := by
  induction l with
  | nil => intro n; rfl
  | cons e es ih =>
    intro n
    show normalizeLayerGuideItem n (layerGuideEntryToJValue e) ::
      ((es.map layerGuideEntryToJValue).enumFrom (n + 1)).map
        (fun p => normalizeLayerGuideItem p.1 p.2) = e :: es
    have he := h e (List.mem_cons_self _ _)
    have hhead : normalizeLayerGuideItem n (layerGuideEntryToJValue e) = e := by
      show LayerGuideEntry.mk (jsTrim e.layer) (jsTrim e.goal) (jsTrim e.output) = e
      rw [he.1, he.2.1, he.2.2]
    rw [hhead, ih (fun x hx => h x (List.mem_cons_of_mem _ hx)) (n + 1)]

theorem toJ_layerGuide (s : CanonicalSpec)
    (h : ∀ e ∈ s.layerGuide, Trimmed e.layer ∧ Trimmed e.goal ∧ Trimmed e.output ∧
      (e.layer ≠ "" ∨ e.goal ≠ "" ∨ e.output ≠ ""))
    (hlen : s.layerGuide.length = 5) :
    normalizeLayerGuide (jOr (jGet (safeOf (specToJValue s)) K.LAYER_GUIDE)
      (jGet (safeOf (specToJValue s)) "layer_guide")) = s.layerGuide := by
  rw [toJ_layerGuideSrc]
  unfold normalizeLayerGuide
  show padLoop 5 _ 5 ((((List.enum (s.layerGuide.map layerGuideEntryToJValue)).map
    (fun p => normalizeLayerGuideItem p.1 p.2)).filter
      (fun e => e.layer ≠ "" ∨ e.goal ≠ "" ∨ e.output ≠ "")).take 5) = s.layerGuide
  have henum : List.enum (s.layerGuide.map layerGuideEntryToJValue) =
      (s.layerGuide.map layerGuideEntryToJValue).enumFrom 0 := rfl
  rw [henum, layer_enumFrom_map s.layerGuide (fun e he => ⟨(h e he).1, (h e he).2.1,
    (h e he).2.2.1⟩) 0]
  rw [List.filter_eq_self.2 (fun e he => decide_eq_true (h e he).2.2.2)]
  rw [List.take_of_length_le (by omega)]
  exact padLoop_of_ge _ _ _ _ (by omega)

theorem toJ_stringList_clean (l : List String) (h : ∀ x ∈ l, Clean x) :
    toStringArray (.arr (l.map .str)) = l :=
  toStringArray_of_clean l h

theorem dedup_fix_general (f g : List String) (lab : String) (hf_len : f.length = 3)
    (hf_nd : f.Nodup) (hf_clean : ∀ x ∈ f, Clean x) :
    toFixedLengthStringArray
      (.arr ((dedupFirst (((f ++ g).map (fun q => jsTrim q)).filter
        (fun q => q ≠ ""))).map .str)) 3 lab = f := by
  have hCeq : ((f ++ g).map (fun q => jsTrim q)).filter (fun q => q ≠ "") =
      f ++ ((g.map (fun q => jsTrim q)).filter (fun q => q ≠ "")) := by
    rw [List.map_append, List.filter_append,
      map_id_of_mem f _ (fun x hx => (hf_clean x hx).1),
      List.filter_eq_self.2 (fun x hx => decide_eq_true (hf_clean x hx).2)]
  have hclean : ∀ x ∈ dedupFirst (((f ++ g).map (fun q => jsTrim q)).filter
      (fun q => q ≠ "")), Clean x :=
    fun x hx => map_trim_filter_clean _ x ((mem_dedupAux _ _ _).1 hx).1
  have htake : (dedupFirst (((f ++ g).map (fun q => jsTrim q)).filter
      (fun q => q ≠ ""))).take 3 = f := by
    unfold dedupFirst
    rw [hCeq, ← hf_len]
    exact dedupAux_take_prefix f [] _ hf_nd (by simp)
  unfold toFixedLengthStringArray
  rw [toStringArray_of_clean _ hclean, htake]
  exact padLoop_of_ge _ _ _ _ (by omega)

theorem toJ_interview (s : CanonicalSpec) (h : Canon s) :
    buildRequiredInterviewQuestions (problemFrameOf (safeOf (specToJValue s)))
      (interviewSourceOf (safeOf (specToJValue s)))
      (ambiguitiesSourceOf (safeOf (specToJValue s))) = s.interview.followUp := by
  rw [toJ_problemFrame s h.who_t h.when_t h.what_t h.why_t h.succ_t]
  simp only [buildRequiredInterviewQuestions]
  rw [toJ_followUpSrc, toJ_questionsSrc, toJ_missingSrc]
  rw [toStringArray_of_clean _ h.followUp_clean,
    toStringArray_of_clean _ h.confirm_clean,
    toStringArray_of_clean _ h.missing_clean]
  rw [List.append_assoc, List.append_assoc]
  exact dedup_fix_general _ _ _ h.followUp_len h.followUp_nodup h.followUp_clean

end VibeSpec

namespace VibeSpec

set_option maxHeartbeats 1600000

theorem toJ_providedScore (s : CanonicalSpec) (h1 : 0 ≤ s.completeness.score)
    (h2 : s.completeness.score ≤ 100) :
    providedScoreOf (specToJValue s) = some s.completeness.score := by
  unfold providedScoreOf
  rw [toJ_scoreSrc]
  exact toIntegerInRange_ofInt _ h1 h2

theorem toJ_providedWarnings (s : CanonicalSpec)
    (h : ∀ x ∈ s.completeness.warnings, Clean x) :
    providedWarningsOf (specToJValue s) = s.completeness.warnings := by
  unfold providedWarningsOf
  rw [toJ_warningsSrc]
  exact toStringArray_of_clean _ h

theorem base_toJ (s : CanonicalSpec) (h : Canon s)
    (himp : ∀ x ∈ s.impactPreview.permissions, jsTrim x = x) :
    baseSpecOf (specToJValue s) = { s with completeness := ⟨0, []⟩ } := by
  have hpc : ∀ x ∈ s.impactPreview.permissions, Clean x :=
    fun x hx => ⟨himp x hx, h.impPerms_nonempty x hx⟩
  simp only [baseSpecOf]
  rw [toJ_interview s h]
  rw [toJ_summary s h.summary_t]
  rw [toJ_problemFrame s h.who_t h.when_t h.what_t h.why_t h.succ_t]
  rw [toJ_roles s h.roles_ok]
  rw [toJ_inputFields s h.inputFields_ok]
  rw [toJ_permissions s h.perms_ok]
  rw [toJ_layerGuide s h.lg_ok h.lg_len]
  rw [toJ_mustSrc, toStringArray_of_clean _ h.must_clean]
  rw [toJ_niceSrc, toStringArray_of_clean _ h.nice_clean]
  rw [toJ_flowSrc, toFixedLengthStringArray_of_clean _ _ _ h.flow_clean h.flow_len]
  rw [toJ_missingSrc, toStringArray_of_clean _ h.missing_clean]
  rw [toJ_questionsSrc, toFixedLengthStringArray_of_clean _ _ _ h.confirm_clean h.confirm_len]
  rw [toJ_risksSrc, toFixedLengthStringArray_of_clean _ _ _ h.risks_clean h.risks_len]
  rw [toJ_testsSrc, toFixedLengthStringArray_of_clean _ _ _ h.tests_clean h.tests_len]
  rw [toJ_tasksSrc, toFixedLengthStringArray_of_clean _ _ _ h.tasks_clean h.tasks_len]
  rw [toJ_reqRawSrc, toJ_reqShortSrc, toJ_reqStandardSrc, toJ_reqDetailedSrc]
  simp only [toSafeString_str]
  rw [h.rawReq_t, h.short_clean.1, h.standard_clean.1, h.detailed_clean.1]
  rw [toJ_impScreensSrc, toStringArray_of_clean _ h.screens_clean]
  rw [toJ_impPermsSrc, toStringArray_of_clean _ hpc]
  rw [toJ_impTestsSrc, toStringArray_of_clean _ h.impTests_clean]

theorem withRequest_id (s : CanonicalSpec) (h1 : s.requestConversion.short ≠ "")
    (h2 : s.requestConversion.standard ≠ "") (h3 : s.requestConversion.detailed ≠ "") :
    withRequestFallbacks s = s := by
  simp only [withRequestFallbacks, if_neg h1, if_neg h2, if_neg h3]

theorem withImpact_id (s : CanonicalSpec) (h1 : s.impactPreview.screens ≠ [])
    (h2 : s.impactPreview.permissions ≠ []) (h3 : s.impactPreview.tests ≠ []) :
    withImpactFallbacks s = s := by
  have g1 : ¬ s.impactPreview.screens.length = 0 := by simpa using h1
  have g2 : ¬ s.impactPreview.permissions.length = 0 := by simpa using h2
  have g3 : ¬ s.impactPreview.tests.length = 0 := by simpa using h3
  simp only [withImpactFallbacks, if_neg g1, if_neg g2, if_neg g3]

theorem completeness_fix (s : CanonicalSpec) (h : Canon s) :
    completenessOf (specToJValue s)
      ({ s with completeness := ⟨0, []⟩ } : CanonicalSpec) = s.completeness := by
  unfold completenessOf
  rw [toJ_providedScore s h.score_lb h.score_ub, toJ_providedWarnings s h.warnings_clean]
  simp only [Option.getD_some]
  by_cases hw : s.completeness.warnings = []
  · rw [if_neg (not_not.2 hw)]
    show Completeness.mk s.completeness.score (computeMissingWarnings s) = s.completeness
    rw [h.warnings_consistent hw, ← hw]
  · rw [if_pos hw]

theorem normalize_fixpoint (s : CanonicalSpec) (h : Canon s)
    (himp : ∀ x ∈ s.impactPreview.permissions, jsTrim x = x) :
    normalizeStandardOutput (specToJValue s) = s := by
  simp only [normalizeStandardOutput]
  rw [base_toJ s h himp]
  rw [withRequest_id ({ s with completeness := ⟨0, []⟩ } : CanonicalSpec)
    h.short_clean.2 h.standard_clean.2 h.detailed_clean.2]
  rw [withImpact_id ({ s with completeness := ⟨0, []⟩ } : CanonicalSpec)
    h.screens_ne h.impPerms_ne h.impTests_ne]
  rw [completeness_fix s h]

end VibeSpec

namespace VibeSpec

set_option maxHeartbeats 1600000

theorem tokens_disjoint (n : String) (hf : n ∈ falsyTokens) :
    truthyTokens.contains n = false := by
  fin_cases hf <;> decide

/-- C1: for every JSON input — `null`, arrays, primitives, arbitrarily
nested malformed objects — `normalizeStandardOutput` is a total function
returning a complete canonical document: every fixed-length field is at its
exact required length and the completeness score is a bounded integer. -/
theorem claim_C1 (raw : JValue) : CanonicalComplete (normalizeStandardOutput raw) := by
  have h := canon_normalize raw
  exact ⟨h.followUp_len, h.flow_len, h.confirm_len, h.risks_len, h.tests_len,
    h.tasks_len, h.lg_len, h.score_lb, h.score_ub⟩

/-- C2: for every input the seven fixed-length fields of the normalized
document have exactly their required lengths (5/3/3/3/3/3/5), and the
fixed-length coercion truncates to the target length and pads every
shortfall with entries of the form fallback-label, a space, and the 1-based
index. -/
theorem claim_C2 (raw : JValue) (v : JValue) (n : Nat) (lab : String) :
    ((normalizeStandardOutput raw).flowSteps.length = 5 ∧
      (normalizeStandardOutput raw).interview.followUp.length = 3 ∧
      (normalizeStandardOutput raw).ambiguities.confirmQuestions.length = 3 ∧
      (normalizeStandardOutput raw).risks.length = 3 ∧
      (normalizeStandardOutput raw).testScenarios.length = 3 ∧
      (normalizeStandardOutput raw).todayTasks.length = 3 ∧
      (normalizeStandardOutput raw).layerGuide.length = 5) ∧
    toFixedLengthStringArray v n lab =
      (toStringArray v).take n ++
        (List.range (n - ((toStringArray v).take n).length)).map
          (fun i => lab ++ " " ++ natToStr (((toStringArray v).take n).length + i + 1)) := by
  have h := canon_normalize raw
  exact ⟨⟨h.flow_len, h.followUp_len, h.confirm_len, h.risks_len, h.tests_len,
    h.tasks_len, h.lg_len⟩, toFixedLengthStringArray_eq v n lab⟩

/-- C3 counterexample: normalization is not idempotent as claimed.  The
input below normalizes to a document whose impact-preview permission entry
is the fallback string role-plus-label with the whitespace role kept, which
carries a leading space; re-normalizing trims that entry, so the second run
differs from the first. -/
theorem claim_C3_cex :
    normalizeStandardOutput (specToJValue (normalizeStandardOutput
      (.obj [(K.PERMISSIONS, .arr [.obj [(K.ROLE, .str " "), (K.NOTES, .str "x")]])]))) ≠
      normalizeStandardOutput
        (.obj [(K.PERMISSIONS, .arr [.obj [(K.ROLE, .str " "), (K.NOTES, .str "x")]])]) := by
  decide

/-- C3 (amended): normalization is idempotent on every input whose first
normalization yields trim-stable impact-preview permission entries (the
only field a second run can change): feeding the canonical document back
through the normalizer returns it unchanged, all synthesized fields
included. -/
theorem claim_C3 (raw : JValue)
    (h : ∀ x ∈ (normalizeStandardOutput raw).impactPreview.permissions, jsTrim x = x) :
    normalizeStandardOutput (specToJValue (normalizeStandardOutput raw)) =
      normalizeStandardOutput raw :=
  normalize_fixpoint _ (canon_normalize raw) h

theorem claim_C3_witness :
    (∀ x ∈ (normalizeStandardOutput .null).impactPreview.permissions, jsTrim x = x) ∧
    normalizeStandardOutput (specToJValue (normalizeStandardOutput .null)) =
      normalizeStandardOutput .null :=
  ⟨by decide, claim_C3 .null (by decide)⟩

/-- C4: the completeness score of every normalized document is an integer
in [0, 100]; it is the provided score — rounded and clamped into range, so
a supplied 150 becomes 100 — when the source supplies a numeric one, and
otherwise the checklist score over the fixed ten predicates. -/
theorem claim_C4 (raw : JValue) :
    (0 ≤ (normalizeStandardOutput raw).completeness.score ∧
      (normalizeStandardOutput raw).completeness.score ≤ 100) ∧
    (normalizeStandardOutput raw).completeness.score =
      (providedScoreOf raw).getD (computeScoreFromSpec
        (withImpactFallbacks (withRequestFallbacks (baseSpecOf raw)))) ∧
    toIntegerInRange (.num (Frac.ofInt 150)) 0 100 = some 100 ∧
    (completenessChecks (baseSpecOf .null)).length = 10 := by
  refine ⟨⟨(canon_normalize raw).score_lb, (canon_normalize raw).score_ub⟩, rfl, by decide, rfl⟩

/-- C5: against a generation client that always answers and a parser that
rejects every text, the retry pipeline issues exactly the initial
generation prompt and then one repair prompt built from the first raw
response, and fails; and for every client and parser whatsoever the call
trace never exceeds two calls. -/
theorem claim_C5 (f : String → String) (jsonParse : String → Option JValue)
    (vibe : String) (showThinking : Bool)
    (hbad : ∀ t, jsonParse (extractJsonText t) = none) :
    parseJsonWithOneRetry (fun p => .ok (f p)) jsonParse vibe showThinking =
      (.error jsonParseFailureMessage,
        [buildPrompt vibe showThinking none,
         buildPrompt vibe showThinking (some (f (buildPrompt vibe showThinking none)))]) ∧
    ∀ (c : String → Except String String) (j : String → Option JValue) (v : String)
      (b : Bool), (parseJsonWithOneRetry c j v b).2.length ≤ 2 := by
  constructor
  · simp only [parseJsonWithOneRetry, hbad]
  · intro c j v b
    unfold parseJsonWithOneRetry
    cases hc : c (buildPrompt v b none) with
    | error e => simp [hc]
    | ok t =>
      cases hj : j (extractJsonText t) with
      | some x => simp [hc, hj]
      | none =>
        cases hc2 : c (buildPrompt v b (some t)) with
        | error e => simp [hc, hj, hc2]
        | ok t2 =>
          cases hj2 : j (extractJsonText t2) with
          | some x => simp [hc, hj, hc2, hj2]
          | none => simp [hc, hj, hc2, hj2]

theorem claim_C5_witness :
    (∀ t : String, (fun _ : String => (none : Option JValue)) (extractJsonText t) = none) ∧
    (parseJsonWithOneRetry (fun p => .ok ((fun q => q) p)) (fun _ => none) "vibe" true =
      (.error jsonParseFailureMessage,
        [buildPrompt "vibe" true none,
         buildPrompt "vibe" true (some ((fun q => q) (buildPrompt "vibe" true none)))]) ∧
     ∀ (c : String → Except String String) (j : String → Option JValue) (v : String)
       (b : Bool), (parseJsonWithOneRetry c j v b).2.length ≤ 2) :=
  ⟨fun _ => rfl, claim_C5 (fun q => q) (fun _ => none) "vibe" true (fun _ => rfl)⟩

/-- C6 counterexample: the two claimed failure kinds are not the only
errors crossing the boundary — with an empty API key the entry point
throws the distinct API-key guard error even though generation and parsing
would succeed. -/
theorem claim_C6_cex :
    transmuteVibeToSpec (fun _ => .ok "\x7b\x7d") (fun _ => some (.obj [])) "m" "vibe" "" =
      .error apiKeyMissingMessage ∧
    apiKeyMissingMessage ≠ transmuteFailureMessage := by
  constructor
  · rfl
  · decide

/-- C6 (amended): once the API key is nonempty, the entry point surfaces
exactly one opaque transmutation-failure error whenever generation or
parsing fails (whatever the underlying error was), and returns a fully
normalized result document — never a partial one — whenever parsing
succeeds. -/
theorem claim_C6 (client : String → Except String String)
    (jsonParse : String → Option JValue) (modelName vibe apiKey : String)
    (showThinking : Bool) (hkey : apiKey ≠ "") :
    (∀ e, (parseJsonWithOneRetry client jsonParse vibe showThinking).1 = .error e →
      transmuteVibeToSpec client jsonParse modelName vibe apiKey showThinking =
        .error transmuteFailureMessage) ∧
    (∀ v, (parseJsonWithOneRetry client jsonParse vibe showThinking).1 = .ok v →
      transmuteVibeToSpec client jsonParse modelName vibe apiKey showThinking =
        .ok (normalizeResult v modelName)) := by
  unfold transmuteVibeToSpec
  rw [if_neg hkey]
  constructor
  · intro e he
    rw [he]
  · intro v hv
    rw [hv]

theorem claim_C6_witness :
    ("k" : String) ≠ "" ∧
    ((∀ e, (parseJsonWithOneRetry (fun _ => .ok "x") (fun _ => none) "v" true).1 = .error e →
        transmuteVibeToSpec (fun _ => .ok "x") (fun _ => none) "m" "v" "k" true =
          .error transmuteFailureMessage) ∧
     (∀ v, (parseJsonWithOneRetry (fun _ => .ok "x") (fun _ => none) "v" true).1 = .ok v →
        transmuteVibeToSpec (fun _ => .ok "x") (fun _ => none) "m" "v" "k" true =
          .ok (normalizeResult v "m"))) :=
  ⟨by decide, claim_C6 (fun _ => .ok "x") (fun _ => none) "m" "v" "k" true (by decide)⟩

/-- C7: boolean coercion maps booleans to themselves, numbers to their
non-zero test, strings through trim and lower-casing into the fixed truthy
and falsy token sets — `허용` is truthy, `금지` is falsy — and every other
value to the fallback (`false` wherever the normalizer calls it); in
particular the permission rule with role `Admin`, read `허용` and delete
`금지` normalizes to canRead true and canDelete false. -/
theorem claim_C7 :
    (∀ b fb, toBoolean (.bool b) fb = b) ∧
    (∀ q fb, toBoolean (.num q) fb = decide (q.num ≠ 0)) ∧
    (∀ s fb, toBoolean (.str s) fb =
      (if truthyTokens.contains (jsToLower (jsTrim s)) then true
       else if falsyTokens.contains (jsToLower (jsTrim s)) then false else fb)) ∧
    (∀ fb, toBoolean .undefined fb = fb ∧ toBoolean .null fb = fb) ∧
    (∀ xs fb, toBoolean (.arr xs) fb = fb) ∧
    (∀ fs fb, toBoolean (.obj fs) fb = fb) ∧
    truthyTokens.contains "허용" = true ∧
    falsyTokens.contains "금지" = true ∧
    (∀ n, n ∈ falsyTokens → truthyTokens.contains n = false) ∧
    (normalizeStandardOutput (.obj [(K.PERMISSIONS, .arr [.obj
        [("role", .str "Admin"), ("read", .str "허용"),
         ("delete", .str "금지")]])])).permissionRules =
      [⟨"Admin", true, false, false, false, ""⟩] := by
  refine ⟨fun b fb => rfl, fun q fb => rfl, fun s fb => rfl, fun fb => ⟨rfl, rfl⟩,
    fun xs fb => rfl, fun fs fb => rfl, rfl, rfl, tokens_disjoint, by decide⟩

/-- C8: string-list coercion sends every non-array value to the empty
list; on arrays it coerces each element through the safe string coercion
and drops the empties, so every surviving entry is a non-empty trim-stable
string. -/
theorem claim_C8 :
    (toStringArray .undefined = [] ∧ toStringArray .null = [] ∧
      (∀ b, toStringArray (.bool b) = []) ∧ (∀ q, toStringArray (.num q) = []) ∧
      (∀ s, toStringArray (.str s) = []) ∧ (∀ fs, toStringArray (.obj fs) = [])) ∧
    (∀ xs, toStringArray (.arr xs) =
      (xs.map (fun x => toSafeString x)).filter (fun s => s ≠ "")) ∧
    ∀ v : JValue, (toStringArray v).all
      (fun x => decide (jsTrim x = x ∧ x ≠ "")) = true := by
  refine ⟨⟨rfl, rfl, fun b => rfl, fun q => rfl, fun s => rfl, fun fs => rfl⟩,
    fun xs => rfl, ?_⟩
  intro v
  rw [List.all_eq_true]
  intro x hx
  exact decide_eq_true (toStringArray_clean v x hx)

/-- C9: the normalizer and the result builder are deterministic pure
functions of their inputs: equal inputs give equal outputs, and the
state-passing reading of the result builder over the module state neither
reads nor writes it — the answer is the same under any two states and the
state comes back unchanged. -/
theorem claim_C9 (a b : JValue) (m1 m2 : String) (σ1 σ2 : ModuleState)
    (hv : a = b) (hm : m1 = m2) :
    normalizeStandardOutput a = normalizeStandardOutput b ∧
    ((normalizeResultInModule a m1).run σ1).1 = ((normalizeResultInModule b m2).run σ2).1 ∧
    ((normalizeResultInModule a m1).run σ1).2 = σ1 := by
  subst hv
  subst hm
  exact ⟨rfl, rfl, rfl⟩

theorem claim_C9_witness :
    (JValue.null = JValue.null) ∧ ("m" : String) = "m" ∧
    (normalizeStandardOutput .null = normalizeStandardOutput .null ∧
     ((normalizeResultInModule .null "m").run ["cached"]).1 =
       ((normalizeResultInModule .null "m").run []).1 ∧
     ((normalizeResultInModule .null "m").run ["cached"]).2 = ["cached"]) :=
  ⟨rfl, rfl, claim_C9 .null .null "m" "m" ["cached"] [] rfl rfl⟩

/-- C10: the two completeness subfields have asymmetric fallback policies:
the provided score wins whenever the coercion yields an integer — a
provided 0 is kept, since 0 survives the range coercion — and only a
missing or non-numeric score falls back to the computed one, whereas the
provided warnings win only when the coerced list is non-empty; an empty
coerced warnings list is replaced by the computed missing-field
warnings. -/
theorem claim_C10 (raw : JValue) (k : Int) :
    (providedScoreOf raw = some k →
      (normalizeStandardOutput raw).completeness.score = k) ∧
    (providedScoreOf raw = none →
      (normalizeStandardOutput raw).completeness.score =
        computeScoreFromSpec (withImpactFallbacks (withRequestFallbacks (baseSpecOf raw)))) ∧
    (providedWarningsOf raw = [] →
      (normalizeStandardOutput raw).completeness.warnings =
        computeMissingWarnings (withImpactFallbacks (withRequestFallbacks (baseSpecOf raw)))) ∧
    (providedWarningsOf raw ≠ [] →
      (normalizeStandardOutput raw).completeness.warnings = providedWarningsOf raw) ∧
    toIntegerInRange (.num (Frac.ofInt 0)) 0 100 = some 0 := by
  refine ⟨?_, ?_, ?_, ?_, by decide⟩
  · intro h
    show (providedScoreOf raw).getD (computeScoreFromSpec
      (withImpactFallbacks (withRequestFallbacks (baseSpecOf raw)))) = k
    rw [h]
    rfl
  · intro h
    show (providedScoreOf raw).getD (computeScoreFromSpec
      (withImpactFallbacks (withRequestFallbacks (baseSpecOf raw)))) =
      computeScoreFromSpec (withImpactFallbacks (withRequestFallbacks (baseSpecOf raw)))
    rw [h]
    rfl
  · intro h
    show (if providedWarningsOf raw ≠ [] then providedWarningsOf raw
      else computeMissingWarnings (withImpactFallbacks (withRequestFallbacks (baseSpecOf raw)))) =
      computeMissingWarnings (withImpactFallbacks (withRequestFallbacks (baseSpecOf raw)))
    rw [if_neg (not_not.2 h)]
  · intro h
    show (if providedWarningsOf raw ≠ [] then providedWarningsOf raw
      else computeMissingWarnings (withImpactFallbacks (withRequestFallbacks (baseSpecOf raw)))) =
      providedWarningsOf raw
    rw [if_pos h]

theorem claim_C10_witness :
    providedScoreOf (.obj [(K.COMPLETENESS, .obj [(K.SCORE, .num (Frac.ofInt 0)),
      (K.WARNINGS, .arr [])])]) = some 0 ∧
    ((providedScoreOf (.obj [(K.COMPLETENESS, .obj [(K.SCORE, .num (Frac.ofInt 0)),
        (K.WARNINGS, .arr [])])]) = some 0 →
      (normalizeStandardOutput (.obj [(K.COMPLETENESS, .obj [(K.SCORE, .num (Frac.ofInt 0)),
        (K.WARNINGS, .arr [])])])).completeness.score = 0) ∧
     (providedScoreOf (.obj [(K.COMPLETENESS, .obj [(K.SCORE, .num (Frac.ofInt 0)),
        (K.WARNINGS, .arr [])])]) = none →
      (normalizeStandardOutput (.obj [(K.COMPLETENESS, .obj [(K.SCORE, .num (Frac.ofInt 0)),
        (K.WARNINGS, .arr [])])])).completeness.score =
        computeScoreFromSpec (withImpactFallbacks (withRequestFallbacks (baseSpecOf
          (.obj [(K.COMPLETENESS, .obj [(K.SCORE, .num (Frac.ofInt 0)),
            (K.WARNINGS, .arr [])])]))))) ∧
     (providedWarningsOf (.obj [(K.COMPLETENESS, .obj [(K.SCORE, .num (Frac.ofInt 0)),
        (K.WARNINGS, .arr [])])]) = [] →
      (normalizeStandardOutput (.obj [(K.COMPLETENESS, .obj [(K.SCORE, .num (Frac.ofInt 0)),
        (K.WARNINGS, .arr [])])])).completeness.warnings =
        computeMissingWarnings (withImpactFallbacks (withRequestFallbacks (baseSpecOf
          (.obj [(K.COMPLETENESS, .obj [(K.SCORE, .num (Frac.ofInt 0)),
            (K.WARNINGS, .arr [])])]))))) ∧
     (providedWarningsOf (.obj [(K.COMPLETENESS, .obj [(K.SCORE, .num (Frac.ofInt 0)),
        (K.WARNINGS, .arr [])])]) ≠ [] →
      (normalizeStandardOutput (.obj [(K.COMPLETENESS, .obj [(K.SCORE, .num (Frac.ofInt 0)),
        (K.WARNINGS, .arr [])])])).completeness.warnings =
        providedWarningsOf (.obj [(K.COMPLETENESS, .obj [(K.SCORE, .num (Frac.ofInt 0)),
          (K.WARNINGS, .arr [])])])) ∧
     toIntegerInRange (.num (Frac.ofInt 0)) 0 100 = some 0) :=
  ⟨by decide, claim_C10 (.obj [(K.COMPLETENESS, .obj [(K.SCORE, .num (Frac.ofInt 0)),
    (K.WARNINGS, .arr [])])]) 0⟩

end VibeSpec
